import Mathlib

/-!
Verification of the RTMP AppID service detector
(src/network_inspectors/appid/service_plugins/service_rtmp.cc).

The detector watches a bidirectional TCP byte stream, drives a two-sided
handshake state machine (C0/S0, C1/S1, C2/S2) with 1536-byte budgets, and
then reconstructs the client's first chunked AMF0 command message,
requiring a "connect" command, from which the optional swfUrl / pageUrl
properties are captured.

Bytes are modelled as natural numbers (each byte comes from a uint8_t);
buffers are lists of bytes consumed from the front exactly as the C code
advances its data pointer and decrements its uint16_t size.  Where the C
code dereferences a data index, the basic-header model also records the
list of offsets read, so that an out-of-bounds dereference (an offset at
or past the available size) is observable.

The two recursive byte consumers (message-body reassembly and the
property-scan loop) recurse on an explicit fuel argument equal to the
measure that makes the C loop terminate (the outstanding message length,
resp. the buffer size), so that every definition is structurally
recursive and computes by kernel reduction.  The validator's while-switch
with deliberate case fallthrough advances strictly forward through the
states within one call, and is therefore modelled as a forward pipeline
of per-state stage functions, each of which first performs the loop's
size > 0 re-check for the state it models.
-/

/-- States of one side of the handshake tracker, in the source's
enumeration order (RTMPState, lines 61-71). -/
inductive RTMPState where
  | stInit
  | sent0
  | sending1
  | sent1
  | sending2
  | sent2
  | stDone
deriving DecidableEq, Repr

/-- Numeric value of the enum constant, used for the source's ordered
comparisons between states. -/
def RTMPState.toNat : RTMPState → Nat
  | .stInit => 0
  | .sent0 => 1
  | .sending1 => 2
  | .sent1 => 3
  | .sending2 => 4
  | .sent2 => 5
  | .stDone => 6

/-- Per-flow detector state (struct ServiceRTMPData).  The two captured
strings are byte lists; a C null pointer is modelled as none. -/
structure ServiceRTMPData where
  client_state : RTMPState
  server_state : RTMPState
  client_bytes_left : Nat
  server_bytes_left : Nat
  swfUrl : Option (List Nat)
  pageUrl : Option (List Nat)
deriving DecidableEq, Repr

/-- The zero-initialized flow state produced by snort_calloc: both sides
in the initial state, both budgets 0, no captured strings. -/
def ssDefault : ServiceRTMPData :=
  ⟨.stInit, .stInit, 0, 0, none, none⟩

/-- Bytes of the literal "connect" (RTMP_COMMAND_TYPE_CONNECT). -/
def connectBytes : List Nat := [0x63, 0x6F, 0x6E, 0x6E, 0x65, 0x63, 0x74]

/-- Bytes of the literal "swfUrl" (RTMP_PROPERTY_KEY_SWFURL). -/
def swfUrlBytes : List Nat := [0x73, 0x77, 0x66, 0x55, 0x72, 0x6C]

/-- Bytes of the literal "pageUrl" (RTMP_PROPERTY_KEY_PAGEURL). -/
def pageUrlBytes : List Nat := [0x70, 0x61, 0x67, 0x65, 0x55, 0x72, 0x6C]

/-- C strncmp(xs, lit, n) == 0, where lit is a NUL-terminated string
literal given as its byte list followed by the terminating 0.  The
comparison stops at the first differing byte (result false), at a NUL
byte found equal in both operands (result true), or after n bytes
(result true). -/
def strncmpLitEq : List Nat → List Nat → Nat → Bool
  | _, _, 0 => true
  | x :: xs, y :: ys, n + 1 =>
      if x ≠ y then false
      else if x = 0 then true
      else strncmpLitEq xs ys n
  | _, _, _ + 1 => false

/-- Chunk basic header reader (parse_rtmp_chunk_basic_header, lines
142-178).  First component: on success, the 2-bit format id, the
chunk-stream id and the remaining bytes after the 1-, 2- or 3-byte
form; none models the C return value 0 (insufficient data).  Second
component: the offsets of every data index the C code dereferences, in
order; for the 3-byte form the source reads offsets 2 and 1 before
checking that 3 bytes are available. -/
def parse_rtmp_chunk_basic_header (data : List Nat) :
    Option (Nat × Nat × List Nat) × List Nat :=
  match data with
  | [] => (none, [])
  | b0 :: _ =>
    if b0 &&& 0x3F = 0 then
      if data.length < 2 then (none, [0])
      else (some ((b0 &&& 0xC0) >>> 6, data.getD 1 0 + 64, data.drop 2),
        [0, 1])
    else if b0 &&& 0x3F = 1 then
      if data.length < 3 then (none, [0, 2, 1])
      else (some ((b0 &&& 0xC0) >>> 6,
        data.getD 2 0 * 256 + data.getD 1 0 + 64, data.drop 3), [0, 2, 1])
    else (some ((b0 &&& 0xC0) >>> 6, b0 &&& 0x3F, data.drop 1), [0])

/-- Chunk message header reader (parse_rtmp_message_header, lines
180-214).  On success returns the chunk-stream id, the 24-bit
big-endian message length, the message type id, and the remaining
bytes after the 11-byte (format 0) or 7-byte (format 1) header; format
ids 2 and 3 are rejected. -/
def parse_rtmp_message_header (data : List Nat) :
    Option (Nat × Nat × Nat × List Nat) :=
  match (parse_rtmp_chunk_basic_header data).1 with
  | none => none
  | some (fmt, csid, d) =>
    match (if fmt = 0 then some 11 else if fmt = 1 then some 7 else none) with
    | none => none
    | some hdr_len =>
      if d.length < hdr_len then none
      else
        some (csid, d.getD 3 0 * 65536 + d.getD 4 0 * 256 + d.getD 5 0,
          d.getD 6 0, d.drop hdr_len)

/-- Body of the message reassembler's while loop
(unchunk_rtmp_message_body, lines 216-255), recursing on a fuel that
the wrapper sets to the declared message length (each iteration copies
at least one byte, so that fuel suffices).  Gathers msg_len body bytes
in chunks of at most RTMP_CHUNK_SIZE = 128, requiring every
continuation chunk to carry format id 3 and the initiating chunk's
stream id. -/
def unchunkAux : Nat → List Nat → Nat → Nat → Option (List Nat × List Nat)
  | 0, data, _, msg_len => if msg_len = 0 then some ([], data) else none
  | fuel + 1, data, csid, msg_len =>
    if msg_len = 0 then some ([], data)
    else
      let chunk_len := if msg_len > 128 then 128 else msg_len
      if data.length < chunk_len then none
      else
        if msg_len - chunk_len = 0 then
          some (data.take chunk_len, data.drop chunk_len)
        else
          match (parse_rtmp_chunk_basic_header (data.drop chunk_len)).1 with
          | none => none
          | some (fmt, id, d2) =>
            if fmt ≠ 3 then none
            else if id ≠ csid then none
            else
              match unchunkAux fuel d2 csid (msg_len - chunk_len) with
              | none => none
              | some (rest_body, d3) =>
                some (data.take chunk_len ++ rest_body, d3)

/-- Message reassembler (unchunk_rtmp_message_body): returns the
reassembled body and the remaining input bytes. -/
def unchunk_rtmp_message_body (data : List Nat) (csid msg_len : Nat) :
    Option (List Nat × List Nat) :=
  unchunkAux msg_len data csid msg_len

/-- AMF0 string reader (duplicate_string, lines 257-286): requires the
string type tag 0x02, a 2-byte big-endian length that must be nonzero,
and that many available bytes; returns the copied string and the
remaining input. -/
def duplicate_string (data : List Nat) : Option (List Nat × List Nat) :=
  if data.length < 1 + 2 then none
  else if data.getD 0 0 ≠ 2 then none
  else if data.getD 1 0 * 256 + data.getD 2 0 = 0 then none
  else if (data.drop 3).length < data.getD 1 0 * 256 + data.getD 2 0 then none
  else some ((data.drop 3).take (data.getD 1 0 * 256 + data.getD 2 0),
    (data.drop 3).drop (data.getD 1 0 * 256 + data.getD 2 0))

/-- AMF0 value skipper (skip_property_value, lines 288-337): skips a
number (8 bytes), boolean (1 byte) or string (2-byte length plus that
many bytes); any other type tag is a hard failure. -/
def skip_property_value (data : List Nat) : Option (List Nat) :=
  match data with
  | [] => none
  | t :: d =>
    if t = 0 then
      if d.length < 8 then none else some (d.drop 8)
    else if t = 1 then
      if d.length < 1 then none else some (d.drop 1)
    else if t = 2 then
      if d.length < 2 then none
      else if (d.drop 2).length < d.getD 0 0 * 256 + d.getD 1 0 then none
      else some ((d.drop 2).drop (d.getD 0 0 * 256 + d.getD 1 0))
    else none

/-- Body of the property-scan do-while of parse_rtmp_message (lines
392-439), recursing on a fuel that the wrapper sets to the buffer
size (each iteration consumes at least one byte).  Each iteration
needs at least 3 bytes; a zero key length is an end-of-object marker
only when followed by the tag 0x09; a matching swfUrl / pageUrl key
captures the following AMF0 string once, any other key skips its
value; the loop exits successfully when the cursor reaches exactly
the end of the body. -/
def scanPropsAux : Nat → List Nat → Option (List Nat) → Option (List Nat) →
    Bool × Option (List Nat) × Option (List Nat)
  | 0, _, swf, pg => (false, swf, pg)
  | fuel + 1, data, swf, pg =>
    if data.length < 3 then (false, swf, pg)
    else if data.getD 0 0 * 256 + data.getD 1 0 = 0 then
      if data.getD 2 0 = 9 then (true, swf, pg) else (false, swf, pg)
    else if (data.drop 2).length < data.getD 0 0 * 256 + data.getD 1 0 then
      (false, swf, pg)
    else if swf = none ∧ data.getD 0 0 * 256 + data.getD 1 0 = 6 ∧
        strncmpLitEq (data.drop 2) (swfUrlBytes ++ [0]) 6 then
      match duplicate_string ((data.drop 2).drop 6) with
      | none => (false, swf, pg)
      | some (s, d2) =>
        if d2.length = 0 then (true, some s, pg)
        else scanPropsAux fuel d2 (some s) pg
    else if pg = none ∧ data.getD 0 0 * 256 + data.getD 1 0 = 7 ∧
        strncmpLitEq (data.drop 2) (pageUrlBytes ++ [0]) 7 then
      match duplicate_string ((data.drop 2).drop 7) with
      | none => (false, swf, pg)
      | some (s, d2) =>
        if d2.length = 0 then (true, swf, some s)
        else scanPropsAux fuel d2 swf (some s)
    else
      match skip_property_value
          ((data.drop 2).drop (data.getD 0 0 * 256 + data.getD 1 0)) with
      | none => (false, swf, pg)
      | some d2 =>
        if d2.length = 0 then (true, swf, pg)
        else scanPropsAux fuel d2 swf pg

/-- Property-scan loop of parse_rtmp_message, entered with the cursor
just past the object type tag; returns the C return flag together with
the possibly updated captured strings. -/
def scanProps (data : List Nat) (swf pg : Option (List Nat)) :
    Bool × Option (List Nat) × Option (List Nat) :=
  scanPropsAux data.length data swf pg

/-- Scan of the reassembled command-message body (parse_rtmp_message
lines 362-439): require the AMF0 string "connect" (compared with
strncmp limited to the string's own length), then a number-typed
transaction id, then the object type tag, then the property-scan
loop. -/
def parse_rtmp_message_body (body : List Nat) (swf pg : Option (List Nat)) :
    Bool × Option (List Nat) × Option (List Nat) :=
  if body.length < 1 + 2 then (false, swf, pg)
  else if body.getD 0 0 ≠ 2 then (false, swf, pg)
  else if body.getD 1 0 * 256 + body.getD 2 0 = 0 then (false, swf, pg)
  else if (body.drop 3).length < body.getD 1 0 * 256 + body.getD 2 0 then
    (false, swf, pg)
  else if ¬ strncmpLitEq (body.drop 3) (connectBytes ++ [0])
      (body.getD 1 0 * 256 + body.getD 2 0) then (false, swf, pg)
  else
    let d := (body.drop 3).drop (body.getD 1 0 * 256 + body.getD 2 0)
    if d.length < 1 + 8 then (false, swf, pg)
    else if d.getD 0 0 ≠ 0 then (false, swf, pg)
    else if (d.drop 9).length < 1 then (false, swf, pg)
    else if (d.drop 9).getD 0 0 ≠ 3 then (false, swf, pg)
    else scanProps ((d.drop 9).drop 1) swf pg

/-- Result of parse_rtmp_message: the return flag, the caller's data
cursor after the call (only advanced past the message when the header
and reassembly succeeded, as in the source), and the updated captured
strings. -/
structure ParseOut where
  ok : Bool
  rest : List Nat
  swf : Option (List Nat)
  pg : Option (List Nat)
deriving DecidableEq, Repr

/-- Full message parse (parse_rtmp_message, lines 339-448): header,
message type 20 (RTMP_AMF0_COMMAND_MESSAGE_ID), chunked-body
reassembly, then the body scan for the connect command. -/
def parse_rtmp_message (data : List Nat) (swf pg : Option (List Nat)) :
    ParseOut :=
  match parse_rtmp_message_header data with
  | none => ⟨false, data, swf, pg⟩
  | some (csid, msg_len, msg_type, d1) =>
    if msg_type ≠ 20 then ⟨false, data, swf, pg⟩
    else
      match unchunk_rtmp_message_body d1 csid msg_len with
      | none => ⟨false, data, swf, pg⟩
      | some (body, d2) =>
        match parse_rtmp_message_body body swf pg with
        | (ok, swf2, pg2) => ⟨ok, d2, swf2, pg2⟩

example :
    parse_rtmp_message
      ([3, 0, 0, 0, 0, 0, 23, 20, 0, 0, 0, 0, 2, 0, 7] ++ connectBytes ++
        [0, 0, 0, 0, 0, 0, 0, 0, 0, 3, 0, 0, 9]) none none =
      ⟨true, [], none, none⟩ := by decide

/-- Result of the client-direction while loop of rtmp_validate (lines
469-557): the ok flag is false when the loop ended in goto fail; the
other fields are the flow fields as they stand when the loop ends
(on failure, as they stand at the failure point, since the C code
mutates the heap state in place). -/
structure ClientLoopOut where
  ok : Bool
  cs : RTMPState
  bl : Nat
  swf : Option (List Nat)
  pg : Option (List Nat)
deriving DecidableEq, Repr

/-- Result of the server-direction while loop of rtmp_validate (lines
560-647); the server loop never touches the captured strings. -/
structure ServerLoopOut where
  ok : Bool
  sv : RTMPState
  bl : Nat
deriving DecidableEq, Repr

/-- Client loop from state RTMP_STATE_DONE (lines 549-552): blindly
consume all remaining data. -/
def clientAtDone (bl : Nat) (swf pg : Option (List Nat)) (_data : List Nat) :
    ClientLoopOut :=
  ⟨true, .stDone, bl, swf, pg⟩

/-- Client loop from state RTMP_STATE_SENT_HANDSHAKE2 (lines 536-547):
if any bytes remain, parse_rtmp_message must find the connect command;
on success the client is done (and the DONE case consumes the rest of
the packet), on failure the flow fails. -/
def clientAtSent2 (bl : Nat) (swf pg : Option (List Nat)) (data : List Nat) :
    ClientLoopOut :=
  if data.length = 0 then ⟨true, .sent2, bl, swf, pg⟩
  else
    match parse_rtmp_message data swf pg with
    | ⟨true, _, swf2, pg2⟩ => ⟨true, .stDone, bl, swf2, pg2⟩
    | ⟨false, _, swf2, pg2⟩ => ⟨false, .sent2, bl, swf2, pg2⟩

/-- Client loop from state RTMP_STATE_SENDING_HANDSHAKE2 (lines
520-534): consume up to bl bytes of C2; completing the budget breaks
back to the loop, which continues at RTMP_STATE_SENT_HANDSHAKE2 with
the bytes left over (the stale bytes-left field is not reset). -/
def clientAtSending2 (bl : Nat) (swf pg : Option (List Nat))
    (data : List Nat) : ClientLoopOut :=
  if data.length = 0 then ⟨true, .sending2, bl, swf, pg⟩
  else if data.length < bl then ⟨true, .sending2, bl - data.length, swf, pg⟩
  else clientAtSent2 bl swf pg (data.drop bl)

/-- Client loop from state RTMP_STATE_SENT_HANDSHAKE1 (lines 509-518):
with bytes still to process, the client may not start C2 before the
server has fully sent S1 (server state at least
RTMP_STATE_SENT_HANDSHAKE1), else the flow fails; then a fresh
1536-byte budget is set and control falls through to the
SENDING_HANDSHAKE2 consumption. -/
def clientAtSent1 (srv : RTMPState) (bl : Nat) (swf pg : Option (List Nat))
    (data : List Nat) : ClientLoopOut :=
  if data.length = 0 then ⟨true, .sent1, bl, swf, pg⟩
  else if srv.toNat < RTMPState.sent1.toNat then ⟨false, .sent1, bl, swf, pg⟩
  else clientAtSending2 1536 swf pg data

/-- Client loop from state RTMP_STATE_SENDING_HANDSHAKE1 (lines
493-507): consume up to bl bytes of C1; completing the budget breaks
back to the loop, which continues at RTMP_STATE_SENT_HANDSHAKE1. -/
def clientAtSending1 (srv : RTMPState) (bl : Nat)
    (swf pg : Option (List Nat)) (data : List Nat) : ClientLoopOut :=
  if data.length = 0 then ⟨true, .sending1, bl, swf, pg⟩
  else if data.length < bl then ⟨true, .sending1, bl - data.length, swf, pg⟩
  else clientAtSent1 srv bl swf pg (data.drop bl)

/-- Client loop from state RTMP_STATE_SENT_HANDSHAKE0 (lines 487-491):
with bytes still to process, set the 1536-byte C1 budget and fall
through to the SENDING_HANDSHAKE1 consumption. -/
def clientAtSent0 (srv : RTMPState) (bl : Nat) (swf pg : Option (List Nat))
    (data : List Nat) : ClientLoopOut :=
  if data.length = 0 then ⟨true, .sent0, bl, swf, pg⟩
  else clientAtSending1 srv 1536 swf pg data

/-- Client loop from state RTMP_STATE_INIT (lines 476-485): C0 must be
exactly the version byte 3, else the flow fails; the byte is consumed
and the loop continues at RTMP_STATE_SENT_HANDSHAKE0. -/
def clientAtInit (srv : RTMPState) (bl : Nat) (swf pg : Option (List Nat))
    (data : List Nat) : ClientLoopOut :=
  match data with
  | [] => ⟨true, .stInit, bl, swf, pg⟩
  | b :: rest =>
    if b ≠ 3 then ⟨false, .stInit, bl, swf, pg⟩
    else clientAtSent0 srv bl swf pg rest

/-- The client-direction while loop of rtmp_validate (lines 469-557),
dispatching on the state the call finds the flow in.  Within one call
control only moves forward through the states, so the loop is the
forward composition of the per-state stage functions. -/
def clientLoop (srv : RTMPState) (cs : RTMPState) (bl : Nat)
    (swf pg : Option (List Nat)) (data : List Nat) : ClientLoopOut :=
  match cs with
  | .stInit => clientAtInit srv bl swf pg data
  | .sent0 => clientAtSent0 srv bl swf pg data
  | .sending1 => clientAtSending1 srv bl swf pg data
  | .sent1 => clientAtSent1 srv bl swf pg data
  | .sending2 => clientAtSending2 bl swf pg data
  | .sent2 => clientAtSent2 bl swf pg data
  | .stDone => clientAtDone bl swf pg data

/-- Server loop from state RTMP_STATE_DONE (lines 638-641): blindly
consume all remaining data. -/
def serverAtDone (bl : Nat) (_data : List Nat) : ServerLoopOut :=
  ⟨true, .stDone, bl⟩

/-- Server loop from state RTMP_STATE_SENT_HANDSHAKE2 (lines 633-636):
with bytes still to process the detector loses interest in the server
and moves it to RTMP_STATE_DONE, which consumes the packet. -/
def serverAtSent2 (bl : Nat) (data : List Nat) : ServerLoopOut :=
  if data.length = 0 then ⟨true, .sent2, bl⟩
  else ⟨true, .stDone, bl⟩

/-- Server loop from state RTMP_STATE_SENDING_HANDSHAKE2 (lines
616-631): consume up to bl bytes of S2; completing the budget falls
directly through SENT_HANDSHAKE2 into DONE, which consumes whatever
is left of the packet. -/
def serverAtSending2 (bl : Nat) (data : List Nat) : ServerLoopOut :=
  if data.length = 0 then ⟨true, .sending2, bl⟩
  else if data.length < bl then ⟨true, .sending2, bl - data.length⟩
  else ⟨true, .stDone, bl⟩

/-- Server loop from state RTMP_STATE_SENT_HANDSHAKE1 (lines 605-614):
with bytes still to process, the server may not start S2 before the
client has fully sent C1 (client state at least
RTMP_STATE_SENT_HANDSHAKE1), else the flow fails; then a fresh
1536-byte budget is set and control falls through to the
SENDING_HANDSHAKE2 consumption. -/
def serverAtSent1 (cli : RTMPState) (bl : Nat) (data : List Nat) :
    ServerLoopOut :=
  if data.length = 0 then ⟨true, .sent1, bl⟩
  else if cli.toNat < RTMPState.sent1.toNat then ⟨false, .sent1, bl⟩
  else serverAtSending2 1536 data

/-- Server loop from state RTMP_STATE_SENDING_HANDSHAKE1 (lines
589-603): consume up to bl bytes of S1; completing the budget breaks
back to the loop, which continues at RTMP_STATE_SENT_HANDSHAKE1. -/
def serverAtSending1 (cli : RTMPState) (bl : Nat) (data : List Nat) :
    ServerLoopOut :=
  if data.length = 0 then ⟨true, .sending1, bl⟩
  else if data.length < bl then ⟨true, .sending1, bl - data.length⟩
  else serverAtSent1 cli bl (data.drop bl)

/-- Server loop from state RTMP_STATE_SENT_HANDSHAKE0 (lines 583-587):
with bytes still to process, set the 1536-byte S1 budget and fall
through to the SENDING_HANDSHAKE1 consumption. -/
def serverAtSent0 (cli : RTMPState) (bl : Nat) (data : List Nat) :
    ServerLoopOut :=
  if data.length = 0 then ⟨true, .sent0, bl⟩
  else serverAtSending1 cli 1536 data

/-- Server loop from state RTMP_STATE_INIT (lines 567-581): the client
must have initiated (client state at least RTMP_STATE_SENT_HANDSHAKE0),
else the flow fails; S0 must be exactly the version byte 3, else the
flow fails; the byte is consumed and the loop continues at
RTMP_STATE_SENT_HANDSHAKE0. -/
def serverAtInit (cli : RTMPState) (bl : Nat) (data : List Nat) :
    ServerLoopOut :=
  match data with
  | [] => ⟨true, .stInit, bl⟩
  | b :: rest =>
    if cli.toNat < RTMPState.sent0.toNat then ⟨false, .stInit, bl⟩
    else if b ≠ 3 then ⟨false, .stInit, bl⟩
    else serverAtSent0 cli bl rest

/-- The server-direction while loop of rtmp_validate (lines 560-647). -/
def serverLoop (cli : RTMPState) (sv : RTMPState) (bl : Nat)
    (data : List Nat) : ServerLoopOut :=
  match sv with
  | .stInit => serverAtInit cli bl data
  | .sent0 => serverAtSent0 cli bl data
  | .sending1 => serverAtSending1 cli bl data
  | .sent1 => serverAtSent1 cli bl data
  | .sending2 => serverAtSending2 bl data
  | .sent2 => serverAtSent2 bl data
  | .stDone => serverAtDone bl data

/-- Direction of the packet handed to the validator (APP_ID_FROM_INITIATOR
is the client-to-server direction). -/
inductive Dir where
  | initiator
  | responder
deriving DecidableEq, Repr

/-- The external HTTP-like session record (httpSession) as far as this
detector touches it: the URL and referer fields. -/
structure HttpSessionM where
  url : Option (List Nat)
  referer : Option (List Nat)
deriving DecidableEq, Repr

/-- The per-flow AppId session as far as this detector reads or writes
it: the optional HTTP session record, the packet counter the ceiling
check reads, and the SCAN_HTTP_HOST_URL_FLAG bit of scan_flags. -/
structure AppIdSessionM where
  hsession : Option HttpSessionM
  session_packet_count : Nat
  scan_flags_host_url : Bool
deriving DecidableEq, Repr

/-- The two configuration values the detector reads
(AppIdModuleConfig). -/
structure ModConfig where
  rtmp_max_packets : Nat
  referred_appId_disabled : Bool
deriving DecidableEq, Repr

/-- Return value of rtmp_validate. -/
inductive ServiceRet where
  | success
  | inprocess
  | nomatch
deriving DecidableEq, Repr

/-- Result of one rtmp_validate call: the return value, the per-flow
detector state as the call leaves it (none only when a zero-size packet
arrives before any state was allocated), and the AppId session. -/
structure ValidateOut where
  ret : ServiceRet
  ss : Option ServiceRTMPData
  asd : AppIdSessionM
deriving DecidableEq, Repr

/-- The success hand-off (lines 674-702): a captured swfUrl is moved
into the HTTP session's url field only if that field is empty
(allocating the record if absent, and raising the host-url scan flag),
otherwise dropped; a captured pageUrl is moved into the referer field
only if referred_appId_disabled is false and that field is empty,
otherwise dropped; both per-flow string fields are cleared. -/
def rtmp_success_handoff (ss : ServiceRTMPData) (asd : AppIdSessionM)
    (cfg : ModConfig) : ServiceRTMPData × AppIdSessionM :=
  let step1 :=
    match ss.swfUrl with
    | none => (ss, asd)
    | some s =>
      let hs := asd.hsession.getD ⟨none, none⟩
      match hs.url with
      | none =>
        ({ ss with swfUrl := none },
         { asd with hsession := some { hs with url := some s },
                    scan_flags_host_url := true })
      | some _ =>
        ({ ss with swfUrl := none }, { asd with hsession := some hs })
  match step1.1.pageUrl with
  | none => step1
  | some p =>
    let hs := (step1.2).hsession.getD ⟨none, none⟩
    if ¬ cfg.referred_appId_disabled ∧ hs.referer = none then
      ({ step1.1 with pageUrl := none },
       { step1.2 with hsession := some { hs with referer := some p } })
    else
      ({ step1.1 with pageUrl := none },
       { step1.2 with hsession := some hs })

/-- Outcome selection after the per-direction loop has consumed the
packet (lines 649-707): a loop failure reports no-match and releases
the captured strings (the fail label, lines 666-672); both sides done
reports success with the metadata hand-off (lines 650-654 and 674-706);
reaching the packet ceiling while indeterminate reports no-match
likewise (lines 656-660); anything else reports in-process. -/
def rtmp_validate_report (ok : Bool) (ss2 : ServiceRTMPData)
    (asd : AppIdSessionM) (cfg : ModConfig) : ValidateOut :=
  if ¬ ok then
    ⟨.nomatch, some { ss2 with swfUrl := none, pageUrl := none }, asd⟩
  else if ss2.client_state = .stDone ∧ ss2.server_state = .stDone then
    ⟨.success, some (rtmp_success_handoff ss2 asd cfg).1,
      (rtmp_success_handoff ss2 asd cfg).2⟩
  else if cfg.rtmp_max_packets ≤ asd.session_packet_count then
    ⟨.nomatch, some { ss2 with swfUrl := none, pageUrl := none }, asd⟩
  else ⟨.inprocess, some ss2, asd⟩

/-- The flow state written back after the client loop has run: the
client-side fields take the loop's values, the server-side fields are
untouched. -/
def clientStepped (ss : ServiceRTMPData) (r : ClientLoopOut) :
    ServiceRTMPData :=
  { ss with client_state := r.cs, client_bytes_left := r.bl,
            swfUrl := r.swf, pageUrl := r.pg }

/-- The flow state written back after the server loop has run: the
server-side fields take the loop's values, the client-side fields and
the captured strings are untouched. -/
def serverStepped (ss : ServiceRTMPData) (r : ServerLoopOut) :
    ServiceRTMPData :=
  { ss with server_state := r.sv, server_bytes_left := r.bl }

/-- One call to rtmp_validate (lines 450-707).  A zero-size packet
short-circuits to the in-process report before the flow state is even
fetched or created (line 458) and in particular before the packet
ceiling is consulted; otherwise the per-direction loop consumes the
whole packet and the outcome is selected as in rtmp_validate_report. -/
def rtmp_validate (ssOpt : Option ServiceRTMPData) (dir : Dir)
    (data : List Nat) (asd : AppIdSessionM) (cfg : ModConfig) : ValidateOut :=
  if data.length = 0 then ⟨.inprocess, ssOpt, asd⟩
  else
    match dir with
    | .initiator =>
      let ss := ssOpt.getD ssDefault
      let r := clientLoop ss.server_state ss.client_state
        ss.client_bytes_left ss.swfUrl ss.pageUrl data
      rtmp_validate_report r.ok (clientStepped ss r) asd cfg
    | .responder =>
      let ss := ssOpt.getD ssDefault
      let r := serverLoop ss.client_state ss.server_state
        ss.server_bytes_left data
      rtmp_validate_report r.ok (serverStepped ss r) asd cfg


/-- Flow states reachable from the freshly allocated state through any
sequence of validator calls (any direction, any payload, any session
and configuration), following the state the call stores back for the
flow. -/
inductive ReachableRTMP : ServiceRTMPData → Prop where
  | base : ReachableRTMP ssDefault
  | step (ss : ServiceRTMPData) (dir : Dir) (data : List Nat)
      (asd : AppIdSessionM) (cfg : ModConfig) (ss' : ServiceRTMPData) :
      ReachableRTMP ss →
      (rtmp_validate (some ss) dir data asd cfg).ss = some ss' →
      ReachableRTMP ss'

/-- The cross-side ordering relations of the handshake: a client at or
past SENDING_HANDSHAKE2 needs the server at or past SENT_HANDSHAKE1; a
server past INIT needs the client at or past SENT_HANDSHAKE0; a server
at or past SENDING_HANDSHAKE2 needs the client at or past
SENT_HANDSHAKE1. -/
def RTMPInv (ss : ServiceRTMPData) : Prop :=
  (4 ≤ ss.client_state.toNat → 3 ≤ ss.server_state.toNat) ∧
  (1 ≤ ss.server_state.toNat → 1 ≤ ss.client_state.toNat) ∧
  (4 ≤ ss.server_state.toNat → 3 ≤ ss.client_state.toNat)

/-- Observable content of a flow state: both states, the two captured
strings, and each bytes-left counter where it is meaningful (the
source only reads bytes_left while the side is in a SENDING state; the
value left behind after a completed budget is stale and is overwritten
before its next use). -/
def obsSS (ss : ServiceRTMPData) :
    RTMPState × RTMPState × Nat × Nat ×
      Option (List Nat) × Option (List Nat) :=
  (ss.client_state, ss.server_state,
   (if ss.client_state = .sending1 ∨ ss.client_state = .sending2 then
     ss.client_bytes_left else 0),
   (if ss.server_state = .sending1 ∨ ss.server_state = .sending2 then
     ss.server_bytes_left else 0),
   ss.swfUrl, ss.pageUrl)

/-- Observable content of a validator result: the reported outcome, the
observable flow state, and the session record. -/
def obsValidate (v : ValidateOut) :
    ServiceRet × Option (RTMPState × RTMPState × Nat × Nat ×
      Option (List Nat) × Option (List Nat)) × AppIdSessionM :=
  (v.ret, v.ss.map obsSS, v.asd)

/-- Observable content of a client-loop result: everything except a
stale bytes-left value (the bytes-left field is only read while the
state is a SENDING state). -/
def obsC (r : ClientLoopOut) :
    Bool × RTMPState × Nat × Option (List Nat) × Option (List Nat) :=
  (r.ok, r.cs,
   (if r.cs = .sending1 ∨ r.cs = .sending2 then r.bl else 0),
   r.swf, r.pg)

/-- Observable content of a server-loop result. -/
def obsS (r : ServerLoopOut) : Bool × RTMPState × Nat :=
  (r.ok, r.sv,
   (if r.sv = .sending1 ∨ r.sv = .sending2 then r.bl else 0))

/-- A single-chunk AMF0 command message whose body is the connect
command with an empty property object: basic header (format 0, chunk
stream 3), 11-byte message header declaring body length 23 and type 20,
then the body: string "connect", number transaction id, object tag,
end-of-object marker. -/
def msgConnect : List Nat :=
  [3, 0, 0, 0, 0, 0, 23, 20, 0, 0, 0, 0, 2, 0, 7] ++ connectBytes ++
    [0, 0, 0, 0, 0, 0, 0, 0, 0, 3, 0, 0, 9]

/-- The same message with the command name replaced by the 3-byte
string "con" (a strict prefix of "connect"); body length 19. -/
def msgCon : List Nat :=
  [3, 0, 0, 0, 0, 0, 19, 20, 0, 0, 0, 0, 2, 0, 3, 0x63, 0x6F, 0x6E] ++
    [0, 0, 0, 0, 0, 0, 0, 0, 0, 3, 0, 0, 9]

/-- The same message with the command name replaced by the 4-byte
string "play"; body length 20. -/
def msgPlay : List Nat :=
  [3, 0, 0, 0, 0, 0, 20, 20, 0, 0, 0, 0, 2, 0, 4, 0x70, 0x6C, 0x61,
    0x79] ++ [0, 0, 0, 0, 0, 0, 0, 0, 0, 3, 0, 0, 9]

/-- Configuration for the concrete runs: a 100-packet ceiling, referrer
capture enabled. -/
def exCfg : ModConfig := ⟨100, false⟩

/-- Session for the concrete runs: no HTTP record, packet count 1 (far
below the ceiling at every call). -/
def exAsd : AppIdSessionM := ⟨none, 1, false⟩

/-- A 1536-byte handshake block of zero bytes (C1/S1/C2/S2 payloads are
arbitrary). -/
def hs1 : List Nat := List.replicate 1536 0

/-- Concrete run, call 1: client sends C0. -/
def st1 : ValidateOut := rtmp_validate none .initiator [3] exAsd exCfg

/-- Concrete run, call 2: server sends S0 and all of S1. -/
def st2 : ValidateOut :=
  rtmp_validate st1.ss .responder (3 :: hs1) exAsd exCfg

/-- Concrete run, call 3: client sends all of C1. -/
def st3 : ValidateOut := rtmp_validate st2.ss .initiator hs1 exAsd exCfg

/-- Concrete run, call 4: server sends all of S2 (server side done). -/
def st4 : ValidateOut := rtmp_validate st3.ss .responder hs1 exAsd exCfg

/-- Concrete run, final client delivery in one call: all of C2 followed
by the whole connect message. -/
def runA_single : ValidateOut :=
  rtmp_validate st4.ss .initiator (hs1 ++ msgConnect) exAsd exCfg

/-- Concrete run, final client delivery split: all of C2 followed by
only the first 10 bytes of the connect message (the rest would arrive
in a later call, but the flow has already failed). -/
def runB_split : ValidateOut :=
  rtmp_validate st4.ss .initiator (hs1 ++ msgConnect.take 10) exAsd exCfg

/-- C2: on the byte slice [0x01] (one byte available, low 6 bits of the
first byte equal to 1, selecting the 3-byte header form) the basic
header reader does return the insufficient-data outcome, but only
after dereferencing offsets 2 and 1, both beyond the 1-byte slice: the
source reads data at offsets 2 and 1 before checking that 3 bytes are
available, while the 2-byte form (slice [0x00]) checks first and reads
only offset 0. -/
theorem C2_basic_header_oob_read :
    (parse_rtmp_chunk_basic_header [1]).1 = none ∧
    (parse_rtmp_chunk_basic_header [1]).2 = [0, 2, 1] ∧
    (2 ∈ (parse_rtmp_chunk_basic_header [1]).2 ∧
      List.length [(1 : Nat)] ≤ 2) ∧
    (parse_rtmp_chunk_basic_header [0]).1 = none ∧
    (parse_rtmp_chunk_basic_header [0]).2 = [0] := by decide

/-- C4 (counterexample): a zero-payload call on an indeterminate flow
whose session packet count (5) has reached the configured maximum (3)
reports in-process, not failure: the zero-size early-out jumps past
the packet-ceiling check. -/
theorem C4_counterexample :
    (3 : Nat) ≤ 5 ∧
    ssDefault.client_state ≠ .stDone ∧
    (rtmp_validate (some ssDefault) .initiator [] ⟨none, 5, false⟩
      ⟨3, false⟩).ret ≠ .nomatch ∧
    (rtmp_validate (some ssDefault) .initiator [] ⟨none, 5, false⟩
      ⟨3, false⟩).ret = .inprocess := by decide

/-- C4 (amended): a validator call carrying zero payload bytes returns
in-process unconditionally and leaves both the per-flow state and the
session record unchanged; the packet-count ceiling is not evaluated on
such a call. -/
theorem C4_zero_payload_inprocess (ssOpt : Option ServiceRTMPData)
    (dir : Dir) (asd : AppIdSessionM) (cfg : ModConfig) :
    rtmp_validate ssOpt dir [] asd cfg = ⟨.inprocess, ssOpt, asd⟩ := by
  simp [rtmp_validate]

set_option maxRecDepth 10000 in
/-- C1 (counterexample): the same client byte sequence (all of C2
followed by the connect message), played against the same flow history
with the packet ceiling out of reach at every call, classifies as
success when delivered in a single call and as failure when split
after 10 bytes of the connect message: in SENT_HANDSHAKE2 the message
parse runs on whatever one call carries and a truncated header is a
hard failure. -/
theorem C1_counterexample :
    runA_single.ret = .success ∧
    runB_split.ret = .nomatch ∧
    hs1 ++ msgConnect = (hs1 ++ msgConnect.take 10) ++ msgConnect.drop 10 ∧
    exAsd.session_packet_count < exCfg.rtmp_max_packets :=
  ⟨by decide, by decide,
    by rw [List.append_assoc, List.take_append_drop], by decide⟩

/-- C3 (counterexample): a well-formed command message whose first AMF0
value is the 3-byte string "con" — a strict prefix of "connect", not
equal to it — passes the connect-command extraction: the source
compares with strncmp limited to the attacker-supplied length, which
accepts any prefix of "connect". -/
theorem C3_counterexample :
    (parse_rtmp_message msgCon none none).ok = true ∧
    [0x63, 0x6F, 0x6E] ≠ connectBytes := by decide

/-- C9: the property-scan loop ends successfully on a zero key length
immediately followed by the object-end tag 0x09 (first conjunct), and
on the remaining size reaching exactly zero after a complete key/value
pair (third conjunct, shown for a one-byte key with a boolean value
filling the buffer exactly); a zero key length followed by any byte
other than 0x09 is a hard failure (second conjunct); reaching a pair
boundary with only 1 or 2 bytes left fails the 3-byte minimum check
(fourth and fifth conjuncts), so only exact exhaustion is a normal
loop end. -/
theorem C9_property_scan_end :
    (∀ rest swf pg, scanProps (0 :: 0 :: 9 :: rest) swf pg =
      (true, swf, pg)) ∧
    (∀ b rest swf pg, b ≠ 9 → scanProps (0 :: 0 :: b :: rest) swf pg =
      (false, swf, pg)) ∧
    (∀ v swf pg, scanProps [0, 1, 0x61, 1, v] swf pg = (true, swf, pg)) ∧
    (∀ b swf pg, scanProps [b] swf pg = (false, swf, pg)) ∧
    (∀ b1 b2 swf pg, scanProps [b1, b2] swf pg = (false, swf, pg)) := by
  refine ⟨?_, ?_, ?_, ?_, ?_⟩
  · intro rest swf pg
    show scanPropsAux (0 :: 0 :: 9 :: rest).length _ _ _ = _
    rw [List.length_cons, scanPropsAux]
    rw [if_neg (by simp), if_pos (by simp), if_pos (by simp)]
  · intro b rest swf pg h
    show scanPropsAux (0 :: 0 :: b :: rest).length _ _ _ = _
    rw [List.length_cons, scanPropsAux]
    rw [if_neg (by simp), if_pos (by simp), if_neg (by simpa using h)]
  · intro v swf pg
    show scanPropsAux ([0, 1, 0x61, 1, v]).length _ _ _ = _
    rw [List.length_cons, scanPropsAux]
    rw [if_neg (by simp), if_neg (by simp), if_neg (by simp),
      if_neg (by simp), if_neg (by simp)]
    simp [skip_property_value]
  · intro b swf pg
    show scanPropsAux ([b]).length _ _ _ = _
    simp only [List.length_cons, scanPropsAux]
    norm_num
  · intro b1 b2 swf pg
    show scanPropsAux ([b1, b2]).length _ _ _ = _
    simp only [List.length_cons, scanPropsAux]
    norm_num

/-- C9 (witness): the loop accepts the bare end-of-object marker and
rejects a zero-length key followed by 0x05. -/
theorem C9_property_scan_end_witness :
    scanProps [0, 0, 9] none none = (true, none, none) ∧
    scanProps [0, 0, 5] none none = (false, none, none) :=
  ⟨C9_property_scan_end.1 [] none none,
   C9_property_scan_end.2.1 5 [] none none (by decide)⟩

theorem strncmpLitEq_nulfree (lit : List Nat) (hlit : ∀ x ∈ lit, x ≠ 0) :
    ∀ (s : List Nat) (n : Nat), n ≤ s.length →
      (strncmpLitEq s (lit ++ [0]) n = true ↔
        ((n ≤ lit.length ∧ s.take n = lit.take n) ∨
         (lit.length + 1 ≤ n ∧ s.take (lit.length + 1) = lit ++ [0]))) := by
  induction lit with
  | nil =>
    intro s n hn
    match n, s with
    | 0, s => simp [strncmpLitEq]
    | n + 1, x :: s' =>
      by_cases hx : x = 0
      · subst hx
        simp [strncmpLitEq]
      · simp [strncmpLitEq, hx]
  | cons a lit2 ih =>
    intro s n hn
    match n, s with
    | 0, s => simp [strncmpLitEq]
    | n + 1, x :: s' =>
      have ha : a ≠ 0 := hlit a (List.mem_cons_self a lit2)
      have hlit2 : ∀ x ∈ lit2, x ≠ 0 := fun x hx =>
        hlit x (List.mem_cons_of_mem a hx)
      simp only [List.length_cons, Nat.add_le_add_iff_right] at hn
      by_cases hxa : x = a
      · subst hxa
        have hrec := ih hlit2 s' n hn
        simp [strncmpLitEq, ha, hrec, List.take_succ_cons]
      · simp [strncmpLitEq, hxa]

/-- C3 (amended): the connect-command name check compares the first
string with strncmp limited to the string's own length against the
NUL-terminated literal "connect", so it accepts exactly the strings
whose bytes are a prefix of "connect" (every nonempty strict prefix
such as "con" included, the zero-length case being rejected earlier by
the nonzero-length check) or that begin with "connect" followed by a
NUL byte; in particular the full message with command name "connect"
passes and the otherwise identical message with command name "play"
fails the flow. -/
theorem C3_connect_check_amended :
    (∀ s : List Nat,
      strncmpLitEq s (connectBytes ++ [0]) s.length = true ↔
        ((s.length ≤ 7 ∧ s = connectBytes.take s.length) ∨
         (8 ≤ s.length ∧ s.take 8 = connectBytes ++ [0]))) ∧
    parse_rtmp_message msgConnect none none = ⟨true, [], none, none⟩ ∧
    (parse_rtmp_message msgPlay none none).ok = false := by
  refine ⟨?_, by decide, by decide⟩
  intro s
  have h7 : connectBytes.length = 7 := by decide
  have h := strncmpLitEq_nulfree connectBytes (by decide) s s.length le_rfl
  rw [h7] at h
  simpa [List.take_length] using h

theorem report_nomatch_clears (ok : Bool) (ss2 : ServiceRTMPData)
    (asd : AppIdSessionM) (cfg : ModConfig)
    (h : (rtmp_validate_report ok ss2 asd cfg).ret = .nomatch) :
    ∃ ss', (rtmp_validate_report ok ss2 asd cfg).ss = some ss' ∧
      ss'.swfUrl = none ∧ ss'.pageUrl = none := by
  unfold rtmp_validate_report at h ⊢
  by_cases hok : ¬ ok
  · rw [if_pos hok] at h ⊢
    exact ⟨_, rfl, rfl, rfl⟩
  · rw [if_neg hok] at h ⊢
    by_cases hdone : ss2.client_state = .stDone ∧ ss2.server_state = .stDone
    · rw [if_pos hdone] at h
      exact absurd h (by simp)
    · rw [if_neg hdone] at h ⊢
      by_cases hceil : cfg.rtmp_max_packets ≤ asd.session_packet_count
      · rw [if_pos hceil] at h ⊢
        exact ⟨_, rfl, rfl, rfl⟩
      · rw [if_neg hceil] at h
        exact absurd h (by simp)

/-- C7: whenever a validator call reports failure (no-match) — for
malformed data, an ordering violation, or the packet ceiling — the
flow state it stores back has both captured strings cleared: the fail
label frees swfUrl and pageUrl and nulls both fields before
returning. -/
theorem C7_failure_clears_strings (ssOpt : Option ServiceRTMPData)
    (dir : Dir) (data : List Nat) (asd : AppIdSessionM) (cfg : ModConfig)
    (h : (rtmp_validate ssOpt dir data asd cfg).ret = .nomatch) :
    ∃ ss', (rtmp_validate ssOpt dir data asd cfg).ss = some ss' ∧
      ss'.swfUrl = none ∧ ss'.pageUrl = none := by
  unfold rtmp_validate at h ⊢
  by_cases hd : data.length = 0
  · rw [if_pos hd] at h
    exact absurd h (by simp)
  · rw [if_neg hd] at h ⊢
    cases dir
    · exact report_nomatch_clears _ _ _ _ h
    · exact report_nomatch_clears _ _ _ _ h

/-- C7 (witness): a client INIT byte other than 3 fails the flow and
the stored state has both strings cleared. -/
theorem C7_failure_clears_strings_witness :
    (rtmp_validate (some ssDefault) .initiator [5] exAsd exCfg).ret =
      .nomatch ∧
    ∃ ss', (rtmp_validate (some ssDefault) .initiator [5] exAsd
        exCfg).ss = some ss' ∧
      ss'.swfUrl = none ∧ ss'.pageUrl = none :=
  ⟨by decide, C7_failure_clears_strings _ _ _ _ _ (by decide)⟩

/-- C8: on the success hand-off, a captured swfUrl lands in the session
record's URL field exactly when that field is empty (otherwise the URL
field keeps its value and the capture is discarded); a captured pageUrl
lands in the referer field exactly when that field is empty and the
referrer-capture-disabled flag is false (otherwise the referer keeps
its value); and the per-flow string fields are cleared in every
case. -/
theorem C8_success_handoff_fields (ss : ServiceRTMPData)
    (asd : AppIdSessionM) (cfg : ModConfig) :
    (rtmp_success_handoff ss asd cfg).1.swfUrl = none ∧
    (rtmp_success_handoff ss asd cfg).1.pageUrl = none ∧
    ((rtmp_success_handoff ss asd cfg).2.hsession.getD ⟨none, none⟩).url =
      (if ss.swfUrl ≠ none ∧ (asd.hsession.getD ⟨none, none⟩).url = none
       then ss.swfUrl else (asd.hsession.getD ⟨none, none⟩).url) ∧
    ((rtmp_success_handoff ss asd cfg).2.hsession.getD
        ⟨none, none⟩).referer =
      (if ss.pageUrl ≠ none ∧ cfg.referred_appId_disabled = false ∧
          (asd.hsession.getD ⟨none, none⟩).referer = none
       then ss.pageUrl else (asd.hsession.getD ⟨none, none⟩).referer) := by
  obtain ⟨cs, sv, cb, sb, swf, pg⟩ := ss
  obtain ⟨hs, cnt, fl⟩ := asd
  obtain ⟨mx, rd⟩ := cfg
  rcases hs with - | ⟨u, r⟩
  · rcases swf with - | s <;> rcases pg with - | p <;> cases rd <;>
      simp [rtmp_success_handoff]
  · rcases u with - | u' <;> rcases r with - | r' <;>
      rcases swf with - | s <;> rcases pg with - | p <;> cases rd <;>
      simp [rtmp_success_handoff]

/-- C5: from a SENDING state with 1536 bytes still owed, 1535 bytes
leave the side in the same state owing exactly 1 byte, and the owed
byte then completes the budget; exactly 1536 bytes complete it in one
call; 1537 bytes consume the budget and hand exactly one byte to the
next state's processing within the same call (for the client, the
SENT state's own logic; for the server's second block, the immediate
fallthrough to DONE absorbs the extra byte).  Shown for both
handshake blocks of both sides; the bytes-left field retains its
stale pre-completion value, as in the source. -/
theorem C5_handshake_budget_exact :
    (∀ srv swf pg (d : List Nat), d.length = 1535 →
      clientLoop srv .sending1 1536 swf pg d =
        ⟨true, .sending1, 1, swf, pg⟩) ∧
    (∀ srv swf pg (d : List Nat), d.length = 1 →
      clientLoop srv .sending1 1 swf pg d = ⟨true, .sent1, 1, swf, pg⟩) ∧
    (∀ srv swf pg (d : List Nat), d.length = 1536 →
      clientLoop srv .sending1 1536 swf pg d =
        ⟨true, .sent1, 1536, swf, pg⟩) ∧
    (∀ srv swf pg (d : List Nat), d.length = 1537 →
      clientLoop srv .sending1 1536 swf pg d =
        clientLoop srv .sent1 1536 swf pg (d.drop 1536) ∧
      (d.drop 1536).length = 1) ∧
    (∀ srv swf pg (d : List Nat), d.length = 1535 →
      clientLoop srv .sending2 1536 swf pg d =
        ⟨true, .sending2, 1, swf, pg⟩) ∧
    (∀ srv swf pg (d : List Nat), d.length = 1 →
      clientLoop srv .sending2 1 swf pg d = ⟨true, .sent2, 1, swf, pg⟩) ∧
    (∀ srv swf pg (d : List Nat), d.length = 1536 →
      clientLoop srv .sending2 1536 swf pg d =
        ⟨true, .sent2, 1536, swf, pg⟩) ∧
    (∀ srv swf pg (d : List Nat), d.length = 1537 →
      clientLoop srv .sending2 1536 swf pg d =
        clientLoop srv .sent2 1536 swf pg (d.drop 1536) ∧
      (d.drop 1536).length = 1) ∧
    (∀ cli (d : List Nat), d.length = 1535 →
      serverLoop cli .sending1 1536 d = ⟨true, .sending1, 1⟩) ∧
    (∀ cli (d : List Nat), d.length = 1 →
      serverLoop cli .sending1 1 d = ⟨true, .sent1, 1⟩) ∧
    (∀ cli (d : List Nat), d.length = 1536 →
      serverLoop cli .sending1 1536 d = ⟨true, .sent1, 1536⟩) ∧
    (∀ cli (d : List Nat), d.length = 1537 →
      serverLoop cli .sending1 1536 d =
        serverLoop cli .sent1 1536 (d.drop 1536) ∧
      (d.drop 1536).length = 1) ∧
    (∀ cli (d : List Nat), d.length = 1535 →
      serverLoop cli .sending2 1536 d = ⟨true, .sending2, 1⟩) ∧
    (∀ cli (d : List Nat), d.length = 1 →
      serverLoop cli .sending2 1 d = ⟨true, .stDone, 1⟩) ∧
    (∀ cli (d : List Nat), d.length = 1536 →
      serverLoop cli .sending2 1536 d = ⟨true, .stDone, 1536⟩) ∧
    (∀ cli (d : List Nat), d.length = 1537 →
      serverLoop cli .sending2 1536 d = ⟨true, .stDone, 1536⟩) := by
  refine ⟨?_, ?_, ?_, ?_, ?_, ?_, ?_, ?_, ?_, ?_, ?_, ?_, ?_, ?_, ?_, ?_⟩
  all_goals intros
  all_goals rename_i d hd
  all_goals
    try (have hnil : d.drop 1 = [] := List.drop_eq_nil_of_le (by omega))
  all_goals
    try (have hnil2 : d.drop 1536 = [] := List.drop_eq_nil_of_le (by omega))
  all_goals simp [clientLoop, serverLoop, clientAtSending1, clientAtSending2,
    clientAtSent1, clientAtSent2, serverAtSending1, serverAtSending2,
    serverAtSent1, serverAtSent2, hd, *]

/-- C5 (witness): concrete 1535-, 1-, 1536- and 1537-byte deliveries. -/
theorem C5_handshake_budget_exact_witness :
    clientLoop .stDone .sending1 1536 none none (List.replicate 1535 0) =
      ⟨true, .sending1, 1, none, none⟩ ∧
    clientLoop .stDone .sending1 1 none none (List.replicate 1 0) =
      ⟨true, .sent1, 1, none, none⟩ ∧
    serverLoop .stDone .sending2 1536 (List.replicate 1536 0) =
      ⟨true, .stDone, 1536⟩ ∧
    (clientLoop .stInit .sending2 1536 none none
        (List.replicate 1537 0) =
      clientLoop .stInit .sent2 1536 none none
        ((List.replicate 1537 0).drop 1536) ∧
      ((List.replicate 1537 0).drop 1536).length = 1) :=
  ⟨C5_handshake_budget_exact.1 .stDone none none _ (by simp only [List.length_replicate]),
   C5_handshake_budget_exact.2.1 .stDone none none _ (by simp only [List.length_replicate]),
   C5_handshake_budget_exact.2.2.2.2.2.2.2.2.2.2.2.2.2.2.1 .stDone _
     (by simp only [List.length_replicate]),
   C5_handshake_budget_exact.2.2.2.2.2.2.2.1 .stInit none none _
     (by simp only [List.length_replicate])⟩

theorem clientAtSent2_cs_ge (bl : Nat) (swf pg : Option (List Nat))
    (data : List Nat) : 5 ≤ (clientAtSent2 bl swf pg data).cs.toNat := by
  unfold clientAtSent2
  split_ifs
  · simp [RTMPState.toNat]
  · rcases parse_rtmp_message data swf pg with ⟨ok, rest, s2, p2⟩
    cases ok <;> simp [RTMPState.toNat]

theorem clientAtSending2_cs_ge (bl : Nat) (swf pg : Option (List Nat))
    (data : List Nat) : 4 ≤ (clientAtSending2 bl swf pg data).cs.toNat := by
  unfold clientAtSending2
  split_ifs
  · simp [RTMPState.toNat]
  · simp [RTMPState.toNat]
  · exact le_trans (by norm_num) (clientAtSent2_cs_ge _ _ _ _)

theorem clientAtSent1_cs_ge (srv : RTMPState) (bl : Nat)
    (swf pg : Option (List Nat)) (data : List Nat) :
    3 ≤ (clientAtSent1 srv bl swf pg data).cs.toNat := by
  unfold clientAtSent1
  split_ifs
  · simp [RTMPState.toNat]
  · simp [RTMPState.toNat]
  · exact le_trans (by norm_num) (clientAtSending2_cs_ge _ _ _ _)

theorem clientAtSending1_cs_ge (srv : RTMPState) (bl : Nat)
    (swf pg : Option (List Nat)) (data : List Nat) :
    2 ≤ (clientAtSending1 srv bl swf pg data).cs.toNat := by
  unfold clientAtSending1
  split_ifs
  · simp [RTMPState.toNat]
  · simp [RTMPState.toNat]
  · exact le_trans (by norm_num) (clientAtSent1_cs_ge _ _ _ _ _)

theorem clientAtSent0_cs_ge (srv : RTMPState) (bl : Nat)
    (swf pg : Option (List Nat)) (data : List Nat) :
    1 ≤ (clientAtSent0 srv bl swf pg data).cs.toNat := by
  unfold clientAtSent0
  split_ifs
  · simp [RTMPState.toNat]
  · exact le_trans (by norm_num) (clientAtSending1_cs_ge _ _ _ _ _)

theorem clientLoop_cs_mono (srv cs : RTMPState) (bl : Nat)
    (swf pg : Option (List Nat)) (data : List Nat) :
    cs.toNat ≤ (clientLoop srv cs bl swf pg data).cs.toNat := by
  cases cs
  · exact Nat.zero_le _
  · exact clientAtSent0_cs_ge srv bl swf pg data
  · exact clientAtSending1_cs_ge srv bl swf pg data
  · exact clientAtSent1_cs_ge srv bl swf pg data
  · exact clientAtSending2_cs_ge bl swf pg data
  · exact clientAtSent2_cs_ge bl swf pg data
  · simp [clientLoop, clientAtDone, RTMPState.toNat]

theorem clientLoop_done (srv : RTMPState) (bl : Nat)
    (swf pg : Option (List Nat)) (data : List Nat) :
    (clientLoop srv .stDone bl swf pg data).cs = .stDone := rfl

theorem serverAtSent2_sv_ge (bl : Nat) (data : List Nat) :
    5 ≤ (serverAtSent2 bl data).sv.toNat := by
  unfold serverAtSent2
  split_ifs <;> simp [RTMPState.toNat]

theorem serverAtSending2_sv_ge (bl : Nat) (data : List Nat) :
    4 ≤ (serverAtSending2 bl data).sv.toNat := by
  unfold serverAtSending2
  split_ifs <;> simp [RTMPState.toNat]

theorem serverAtSent1_sv_ge (cli : RTMPState) (bl : Nat) (data : List Nat) :
    3 ≤ (serverAtSent1 cli bl data).sv.toNat := by
  unfold serverAtSent1
  split_ifs
  · simp [RTMPState.toNat]
  · simp [RTMPState.toNat]
  · exact le_trans (by norm_num) (serverAtSending2_sv_ge _ _)

theorem serverAtSending1_sv_ge (cli : RTMPState) (bl : Nat)
    (data : List Nat) : 2 ≤ (serverAtSending1 cli bl data).sv.toNat := by
  unfold serverAtSending1
  split_ifs
  · simp [RTMPState.toNat]
  · simp [RTMPState.toNat]
  · exact le_trans (by norm_num) (serverAtSent1_sv_ge _ _ _)

theorem serverAtSent0_sv_ge (cli : RTMPState) (bl : Nat)
    (data : List Nat) : 1 ≤ (serverAtSent0 cli bl data).sv.toNat := by
  unfold serverAtSent0
  split_ifs
  · simp [RTMPState.toNat]
  · exact le_trans (by norm_num) (serverAtSending1_sv_ge _ _ _)

theorem serverLoop_sv_mono (cli sv : RTMPState) (bl : Nat)
    (data : List Nat) :
    sv.toNat ≤ (serverLoop cli sv bl data).sv.toNat := by
  cases sv
  · exact Nat.zero_le _
  · exact serverAtSent0_sv_ge cli bl data
  · exact serverAtSending1_sv_ge cli bl data
  · exact serverAtSent1_sv_ge cli bl data
  · exact serverAtSending2_sv_ge bl data
  · exact serverAtSent2_sv_ge bl data
  · simp [serverLoop, serverAtDone, RTMPState.toNat]

theorem serverLoop_done (cli : RTMPState) (bl : Nat) (data : List Nat) :
    (serverLoop cli .stDone bl data).sv = .stDone := rfl

theorem clientAtSent1_cross (srv : RTMPState) (bl : Nat)
    (swf pg : Option (List Nat)) (data : List Nat)
    (h : 4 ≤ (clientAtSent1 srv bl swf pg data).cs.toNat) :
    3 ≤ srv.toNat := by
  unfold clientAtSent1 at h
  split_ifs at h with h1 h2
  · simp [RTMPState.toNat] at h
  · simp [RTMPState.toNat] at h
  · simpa [RTMPState.toNat] using Nat.le_of_not_lt h2

theorem clientAtSending1_cross (srv : RTMPState) (bl : Nat)
    (swf pg : Option (List Nat)) (data : List Nat)
    (h : 4 ≤ (clientAtSending1 srv bl swf pg data).cs.toNat) :
    3 ≤ srv.toNat := by
  unfold clientAtSending1 at h
  split_ifs at h
  · simp [RTMPState.toNat] at h
  · simp [RTMPState.toNat] at h
  · exact clientAtSent1_cross _ _ _ _ _ h

theorem clientAtSent0_cross (srv : RTMPState) (bl : Nat)
    (swf pg : Option (List Nat)) (data : List Nat)
    (h : 4 ≤ (clientAtSent0 srv bl swf pg data).cs.toNat) :
    3 ≤ srv.toNat := by
  unfold clientAtSent0 at h
  split_ifs at h
  · simp [RTMPState.toNat] at h
  · exact clientAtSending1_cross _ _ _ _ _ h

theorem clientAtInit_cross (srv : RTMPState) (bl : Nat)
    (swf pg : Option (List Nat)) (data : List Nat)
    (h : 4 ≤ (clientAtInit srv bl swf pg data).cs.toNat) :
    3 ≤ srv.toNat := by
  unfold clientAtInit at h
  match data with
  | [] => simp [RTMPState.toNat] at h
  | b :: rest =>
    simp only at h
    split_ifs at h
    · simp [RTMPState.toNat] at h
    · exact clientAtSent0_cross _ _ _ _ _ h

theorem clientLoop_cross (srv cs : RTMPState) (bl : Nat)
    (swf pg : Option (List Nat)) (data : List Nat)
    (h : 4 ≤ (clientLoop srv cs bl swf pg data).cs.toNat) :
    4 ≤ cs.toNat ∨ 3 ≤ srv.toNat := by
  cases cs
  · exact Or.inr (clientAtInit_cross _ _ _ _ _ h)
  · exact Or.inr (clientAtSent0_cross _ _ _ _ _ h)
  · exact Or.inr (clientAtSending1_cross _ _ _ _ _ h)
  · exact Or.inr (clientAtSent1_cross _ _ _ _ _ h)
  · exact Or.inl (by simp [RTMPState.toNat])
  · exact Or.inl (by simp [RTMPState.toNat])
  · exact Or.inl (by simp [RTMPState.toNat])

theorem serverAtInit_cross1 (cli : RTMPState) (bl : Nat) (data : List Nat)
    (h : 1 ≤ (serverAtInit cli bl data).sv.toNat) : 1 ≤ cli.toNat := by
  unfold serverAtInit at h
  match data with
  | [] => simp [RTMPState.toNat] at h
  | b :: rest =>
    simp only at h
    split_ifs at h with h1 h2
    · simp [RTMPState.toNat] at h
    · simp [RTMPState.toNat] at h
    · simpa [RTMPState.toNat] using Nat.le_of_not_lt h1

theorem serverLoop_cross1 (cli sv : RTMPState) (bl : Nat) (data : List Nat)
    (h : 1 ≤ (serverLoop cli sv bl data).sv.toNat) :
    1 ≤ sv.toNat ∨ 1 ≤ cli.toNat := by
  cases sv
  · exact Or.inr (serverAtInit_cross1 _ _ _ h)
  all_goals exact Or.inl (by simp [RTMPState.toNat])

theorem serverAtSent1_cross (cli : RTMPState) (bl : Nat) (data : List Nat)
    (h : 4 ≤ (serverAtSent1 cli bl data).sv.toNat) : 3 ≤ cli.toNat := by
  unfold serverAtSent1 at h
  split_ifs at h with h1 h2
  · simp [RTMPState.toNat] at h
  · simp [RTMPState.toNat] at h
  · simpa [RTMPState.toNat] using Nat.le_of_not_lt h2

theorem serverAtSending1_cross (cli : RTMPState) (bl : Nat)
    (data : List Nat)
    (h : 4 ≤ (serverAtSending1 cli bl data).sv.toNat) : 3 ≤ cli.toNat := by
  unfold serverAtSending1 at h
  split_ifs at h
  · simp [RTMPState.toNat] at h
  · simp [RTMPState.toNat] at h
  · exact serverAtSent1_cross _ _ _ h

theorem serverAtSent0_cross (cli : RTMPState) (bl : Nat) (data : List Nat)
    (h : 4 ≤ (serverAtSent0 cli bl data).sv.toNat) : 3 ≤ cli.toNat := by
  unfold serverAtSent0 at h
  split_ifs at h
  · simp [RTMPState.toNat] at h
  · exact serverAtSending1_cross _ _ _ h

theorem serverAtInit_cross4 (cli : RTMPState) (bl : Nat) (data : List Nat)
    (h : 4 ≤ (serverAtInit cli bl data).sv.toNat) : 3 ≤ cli.toNat := by
  unfold serverAtInit at h
  match data with
  | [] => simp [RTMPState.toNat] at h
  | b :: rest =>
    simp only at h
    split_ifs at h
    · simp [RTMPState.toNat] at h
    · simp [RTMPState.toNat] at h
    · exact serverAtSent0_cross _ _ _ h

theorem serverLoop_cross4 (cli sv : RTMPState) (bl : Nat) (data : List Nat)
    (h : 4 ≤ (serverLoop cli sv bl data).sv.toNat) :
    4 ≤ sv.toNat ∨ 3 ≤ cli.toNat := by
  cases sv
  · exact Or.inr (serverAtInit_cross4 _ _ _ h)
  · exact Or.inr (serverAtSent0_cross _ _ _ h)
  · exact Or.inr (serverAtSending1_cross _ _ _ h)
  · exact Or.inr (serverAtSent1_cross _ _ _ h)
  · exact Or.inl (by simp [RTMPState.toNat])
  · exact Or.inl (by simp [RTMPState.toNat])
  · exact Or.inl (by simp [RTMPState.toNat])

theorem rtmp_success_handoff_ss (ss : ServiceRTMPData)
    (asd : AppIdSessionM) (cfg : ModConfig) :
    (rtmp_success_handoff ss asd cfg).1 =
      { ss with swfUrl := none, pageUrl := none } := by
  obtain ⟨cs, sv, cb, sb, swf, pg⟩ := ss
  obtain ⟨hs, cnt, fl⟩ := asd
  obtain ⟨mx, rd⟩ := cfg
  rcases hs with - | ⟨u, r⟩
  · rcases swf with - | s <;> rcases pg with - | p <;> cases rd <;>
      simp [rtmp_success_handoff]
  · rcases u with - | u' <;> rcases r with - | r' <;>
      rcases swf with - | s <;> rcases pg with - | p <;> cases rd <;>
      simp [rtmp_success_handoff]

theorem report_states (ok : Bool) (ss2 : ServiceRTMPData)
    (asd : AppIdSessionM) (cfg : ModConfig) :
    ((rtmp_validate_report ok ss2 asd cfg).ss.getD
        ssDefault).client_state = ss2.client_state ∧
    ((rtmp_validate_report ok ss2 asd cfg).ss.getD
        ssDefault).server_state = ss2.server_state := by
  unfold rtmp_validate_report
  split_ifs <;> simp [rtmp_success_handoff_ss]


theorem clientStepped_fields (ss : ServiceRTMPData) (r : ClientLoopOut) :
    (clientStepped ss r).client_state = r.cs ∧
    (clientStepped ss r).server_state = ss.server_state ∧
    (clientStepped ss r).client_bytes_left = r.bl ∧
    (clientStepped ss r).server_bytes_left = ss.server_bytes_left ∧
    (clientStepped ss r).swfUrl = r.swf ∧
    (clientStepped ss r).pageUrl = r.pg :=
  ⟨rfl, rfl, rfl, rfl, rfl, rfl⟩

theorem serverStepped_fields (ss : ServiceRTMPData) (r : ServerLoopOut) :
    (serverStepped ss r).client_state = ss.client_state ∧
    (serverStepped ss r).server_state = r.sv ∧
    (serverStepped ss r).client_bytes_left = ss.client_bytes_left ∧
    (serverStepped ss r).server_bytes_left = r.bl ∧
    (serverStepped ss r).swfUrl = ss.swfUrl ∧
    (serverStepped ss r).pageUrl = ss.pageUrl :=
  ⟨rfl, rfl, rfl, rfl, rfl, rfl⟩

theorem rtmp_validate_initiator (ssOpt : Option ServiceRTMPData)
    (data : List Nat) (asd : AppIdSessionM) (cfg : ModConfig)
    (hd : ¬ data.length = 0) :
    rtmp_validate ssOpt .initiator data asd cfg =
      rtmp_validate_report
        (clientLoop (ssOpt.getD ssDefault).server_state
          (ssOpt.getD ssDefault).client_state
          (ssOpt.getD ssDefault).client_bytes_left
          (ssOpt.getD ssDefault).swfUrl (ssOpt.getD ssDefault).pageUrl
          data).ok
        (clientStepped (ssOpt.getD ssDefault)
          (clientLoop (ssOpt.getD ssDefault).server_state
            (ssOpt.getD ssDefault).client_state
            (ssOpt.getD ssDefault).client_bytes_left
            (ssOpt.getD ssDefault).swfUrl (ssOpt.getD ssDefault).pageUrl
            data)) asd cfg := by
  unfold rtmp_validate
  rw [if_neg hd]

theorem rtmp_validate_responder (ssOpt : Option ServiceRTMPData)
    (data : List Nat) (asd : AppIdSessionM) (cfg : ModConfig)
    (hd : ¬ data.length = 0) :
    rtmp_validate ssOpt .responder data asd cfg =
      rtmp_validate_report
        (serverLoop (ssOpt.getD ssDefault).client_state
          (ssOpt.getD ssDefault).server_state
          (ssOpt.getD ssDefault).server_bytes_left data).ok
        (serverStepped (ssOpt.getD ssDefault)
          (serverLoop (ssOpt.getD ssDefault).client_state
            (ssOpt.getD ssDefault).server_state
            (ssOpt.getD ssDefault).server_bytes_left data)) asd cfg := by
  unfold rtmp_validate
  rw [if_neg hd]

/-- C10: across any single validator call, with any outcome, neither
side's state moves backwards in the enumeration order, and a side that
has reached DONE stays in DONE. -/
theorem C10_state_monotonic (ssOpt : Option ServiceRTMPData) (dir : Dir)
    (data : List Nat) (asd : AppIdSessionM) (cfg : ModConfig) :
    (ssOpt.getD ssDefault).client_state.toNat ≤
      ((rtmp_validate ssOpt dir data asd cfg).ss.getD
        ssDefault).client_state.toNat ∧
    (ssOpt.getD ssDefault).server_state.toNat ≤
      ((rtmp_validate ssOpt dir data asd cfg).ss.getD
        ssDefault).server_state.toNat ∧
    ((ssOpt.getD ssDefault).client_state = .stDone →
      ((rtmp_validate ssOpt dir data asd cfg).ss.getD
        ssDefault).client_state = .stDone) ∧
    ((ssOpt.getD ssDefault).server_state = .stDone →
      ((rtmp_validate ssOpt dir data asd cfg).ss.getD
        ssDefault).server_state = .stDone) := by
  by_cases hd : data.length = 0
  · unfold rtmp_validate
    rw [if_pos hd]
    simp
  · cases dir
    · rw [rtmp_validate_initiator ssOpt data asd cfg hd]
      set ss0 := ssOpt.getD ssDefault with hss0
      set r := clientLoop ss0.server_state ss0.client_state
        ss0.client_bytes_left ss0.swfUrl ss0.pageUrl data with hr
      have hst := report_states r.ok (clientStepped ss0 r) asd cfg
      rw [hst.1, hst.2, (clientStepped_fields ss0 r).1,
        (clientStepped_fields ss0 r).2.1]
      refine ⟨?_, le_refl _, ?_, fun h => h⟩
      · have hm := clientLoop_cs_mono ss0.server_state ss0.client_state
          ss0.client_bytes_left ss0.swfUrl ss0.pageUrl data
        rw [← hr] at hm
        exact hm
      · intro h
        rw [hr, h]
        exact clientLoop_done _ _ _ _ _
    · rw [rtmp_validate_responder ssOpt data asd cfg hd]
      set ss0 := ssOpt.getD ssDefault with hss0
      set r := serverLoop ss0.client_state ss0.server_state
        ss0.server_bytes_left data with hr
      have hst := report_states r.ok (serverStepped ss0 r) asd cfg
      rw [hst.1, hst.2, (serverStepped_fields ss0 r).1,
        (serverStepped_fields ss0 r).2.1]
      refine ⟨le_refl _, ?_, fun h => h, ?_⟩
      · have hm := serverLoop_sv_mono ss0.client_state ss0.server_state
          ss0.server_bytes_left data
        rw [← hr] at hm
        exact hm
      · intro h
        rw [hr, h]
        exact serverLoop_done _ _ _

/-- C10 (witness): a concrete call on a flow whose client side is
already DONE. -/
theorem C10_state_monotonic_witness :
    ((some ⟨.stDone, .sent0, 0, 0, none, none⟩ :
        Option ServiceRTMPData).getD ssDefault).client_state.toNat ≤
      ((rtmp_validate (some ⟨.stDone, .sent0, 0, 0, none, none⟩)
        .initiator [1] exAsd exCfg).ss.getD
        ssDefault).client_state.toNat ∧
    ((some ⟨.stDone, .sent0, 0, 0, none, none⟩ :
        Option ServiceRTMPData).getD ssDefault).server_state.toNat ≤
      ((rtmp_validate (some ⟨.stDone, .sent0, 0, 0, none, none⟩)
        .initiator [1] exAsd exCfg).ss.getD
        ssDefault).server_state.toNat ∧
    (((some ⟨.stDone, .sent0, 0, 0, none, none⟩ :
        Option ServiceRTMPData).getD ssDefault).client_state = .stDone →
      ((rtmp_validate (some ⟨.stDone, .sent0, 0, 0, none, none⟩)
        .initiator [1] exAsd exCfg).ss.getD
        ssDefault).client_state = .stDone) ∧
    (((some ⟨.stDone, .sent0, 0, 0, none, none⟩ :
        Option ServiceRTMPData).getD ssDefault).server_state = .stDone →
      ((rtmp_validate (some ⟨.stDone, .sent0, 0, 0, none, none⟩)
        .initiator [1] exAsd exCfg).ss.getD
        ssDefault).server_state = .stDone) :=
  C10_state_monotonic (some ⟨.stDone, .sent0, 0, 0, none, none⟩)
    .initiator [1] exAsd exCfg

theorem report_ss_state_eq (ok : Bool) (ss2 : ServiceRTMPData)
    (asd : AppIdSessionM) (cfg : ModConfig) (ss' : ServiceRTMPData)
    (h : (rtmp_validate_report ok ss2 asd cfg).ss = some ss') :
    ss'.client_state = ss2.client_state ∧
    ss'.server_state = ss2.server_state := by
  have h2 := report_states ok ss2 asd cfg
  rw [h] at h2
  simpa using h2

theorem rtmp_validate_preserves_inv (ss : ServiceRTMPData) (dir : Dir)
    (data : List Nat) (asd : AppIdSessionM) (cfg : ModConfig)
    (ss' : ServiceRTMPData)
    (hss : (rtmp_validate (some ss) dir data asd cfg).ss = some ss')
    (hinv : RTMPInv ss) : RTMPInv ss' := by
  by_cases hd : data.length = 0
  · unfold rtmp_validate at hss
    rw [if_pos hd] at hss
    simp only [Option.some.injEq] at hss
    subst hss
    exact hinv
  · cases dir
    · rw [rtmp_validate_initiator (some ss) data asd cfg hd] at hss
      simp only [Option.getD_some] at hss
      set r := clientLoop ss.server_state ss.client_state
        ss.client_bytes_left ss.swfUrl ss.pageUrl data with hr
      have hst := report_ss_state_eq _ _ _ _ _ hss
      rw [(clientStepped_fields ss r).1, (clientStepped_fields ss r).2.1]
        at hst
      obtain ⟨h1, h2, h3⟩ := hinv
      refine ⟨?_, ?_, ?_⟩
      · rw [hst.1, hst.2]
        intro h4
        rcases clientLoop_cross ss.server_state ss.client_state
          ss.client_bytes_left ss.swfUrl ss.pageUrl data (hr ▸ h4) with
          hc | hc
        · exact h1 hc
        · exact hc
      · rw [hst.1, hst.2]
        intro h4
        have h5 := h2 h4
        have hm := clientLoop_cs_mono ss.server_state ss.client_state
          ss.client_bytes_left ss.swfUrl ss.pageUrl data
        rw [← hr] at hm
        omega
      · rw [hst.1, hst.2]
        intro h4
        have h5 := h3 h4
        have hm := clientLoop_cs_mono ss.server_state ss.client_state
          ss.client_bytes_left ss.swfUrl ss.pageUrl data
        rw [← hr] at hm
        omega
    · rw [rtmp_validate_responder (some ss) data asd cfg hd] at hss
      simp only [Option.getD_some] at hss
      set r := serverLoop ss.client_state ss.server_state
        ss.server_bytes_left data with hr
      have hst := report_ss_state_eq _ _ _ _ _ hss
      rw [(serverStepped_fields ss r).1, (serverStepped_fields ss r).2.1]
        at hst
      obtain ⟨h1, h2, h3⟩ := hinv
      refine ⟨?_, ?_, ?_⟩
      · rw [hst.1, hst.2]
        intro h4
        have h5 := h1 h4
        have hm := serverLoop_sv_mono ss.client_state ss.server_state
          ss.server_bytes_left data
        rw [← hr] at hm
        omega
      · rw [hst.1, hst.2]
        intro h4
        rcases serverLoop_cross1 ss.client_state ss.server_state
          ss.server_bytes_left data (hr ▸ h4) with hc | hc
        · exact h2 hc
        · exact hc
      · rw [hst.1, hst.2]
        intro h4
        rcases serverLoop_cross4 ss.client_state ss.server_state
          ss.server_bytes_left data (hr ▸ h4) with hc | hc
        · exact h3 hc
        · exact hc

/-- C6: with bytes still to process, a client in SENT_HANDSHAKE1 fails
the flow when the server is below SENT_HANDSHAKE1; a server in INIT
fails when the client is below SENT_HANDSHAKE0; a server in
SENT_HANDSHAKE1 fails when the client is below SENT_HANDSHAKE1; and in
every reachable flow state the corresponding cross-side ordering
relations hold (a fortiori in every reachable non-failed state). -/
theorem C6_cross_side_ordering :
    (∀ srv bl swf pg (b : Nat) (rest : List Nat),
      srv.toNat < RTMPState.sent1.toNat →
      (clientLoop srv .sent1 bl swf pg (b :: rest)).ok = false) ∧
    (∀ cli bl (b : Nat) (rest : List Nat),
      cli.toNat < RTMPState.sent0.toNat →
      (serverLoop cli .stInit bl (b :: rest)).ok = false) ∧
    (∀ cli bl (b : Nat) (rest : List Nat),
      cli.toNat < RTMPState.sent1.toNat →
      (serverLoop cli .sent1 bl (b :: rest)).ok = false) ∧
    (∀ ss, ReachableRTMP ss → RTMPInv ss) := by
  refine ⟨?_, ?_, ?_, ?_⟩
  · intro srv bl swf pg b rest h
    simp [clientLoop, clientAtSent1, h]
  · intro cli bl b rest h
    simp [serverLoop, serverAtInit, h]
  · intro cli bl b rest h
    simp [serverLoop, serverAtSent1, h]
  · intro ss h
    induction h with
    | base => exact ⟨by decide, by decide, by decide⟩
    | step ss dir data asd cfg ss' hre hss ih =>
      exact rtmp_validate_preserves_inv ss dir data asd cfg ss' hss ih

/-- C6 (witness): concrete ordering violations and the invariant at the
initial state. -/
theorem C6_cross_side_ordering_witness :
    (clientLoop .sent0 .sent1 0 none none [7]).ok = false ∧
    (serverLoop .stInit .stInit 0 [3]).ok = false ∧
    (serverLoop .sending1 .sent1 0 [0]).ok = false ∧
    RTMPInv ssDefault :=
  ⟨C6_cross_side_ordering.1 .sent0 0 none none 7 [] (by decide),
   C6_cross_side_ordering.2.1 .stInit 0 3 [] (by decide),
   C6_cross_side_ordering.2.2.1 .sending1 0 0 [] (by decide),
   C6_cross_side_ordering.2.2.2 ssDefault ReachableRTMP.base⟩

theorem drop_append_of_length_le (l1 l2 : List Nat) (n : Nat)
    (h : l1.length ≤ n) :
    (l1 ++ l2).drop n = l2.drop (n - l1.length) := by
  induction l1 generalizing n with
  | nil => simp
  | cons a t ih =>
    match n with
    | 0 => simp at h
    | m + 1 =>
      simp only [List.cons_append, List.drop_succ_cons]
      simp only [List.length_cons, Nat.add_le_add_iff_right] at h
      rw [ih m h]
      simp

theorem clientAtSent1_bl_irrel (srv : RTMPState) (bl bl' : Nat)
    (swf pg : Option (List Nat)) (data : List Nat) :
    obsC (clientAtSent1 srv bl swf pg data) =
      obsC (clientAtSent1 srv bl' swf pg data) := by
  unfold clientAtSent1
  split_ifs <;> simp [obsC]

theorem clientAtSent2_bl_irrel (bl bl' : Nat)
    (swf pg : Option (List Nat)) (data : List Nat) :
    obsC (clientAtSent2 bl swf pg data) =
      obsC (clientAtSent2 bl' swf pg data) := by
  unfold clientAtSent2
  split_ifs
  · simp [obsC]
  · rcases parse_rtmp_message data swf pg with ⟨ok, rest, s2, p2⟩
    cases ok <;> simp [obsC]

theorem serverAtSent1_bl_irrel (cli : RTMPState) (bl bl' : Nat)
    (data : List Nat) :
    obsS (serverAtSent1 cli bl data) = obsS (serverAtSent1 cli bl' data) := by
  unfold serverAtSent1
  split_ifs <;> simp [obsS]

theorem clientAtSending1_stay (srv : RTMPState) (bl : Nat)
    (swf pg : Option (List Nat)) (d : List Nat) (h : d.length < bl) :
    clientAtSending1 srv bl swf pg d =
      ⟨true, .sending1, bl - d.length, swf, pg⟩ := by
  unfold clientAtSending1
  by_cases h0 : d.length = 0
  · rw [if_pos h0, h0]
    simp
  · rw [if_neg h0, if_pos h]

theorem clientAtSending2_stay (bl : Nat)
    (swf pg : Option (List Nat)) (d : List Nat) (h : d.length < bl) :
    clientAtSending2 bl swf pg d =
      ⟨true, .sending2, bl - d.length, swf, pg⟩ := by
  unfold clientAtSending2
  by_cases h0 : d.length = 0
  · rw [if_pos h0, h0]
    simp
  · rw [if_neg h0, if_pos h]

theorem serverAtSending1_stay (cli : RTMPState) (bl : Nat)
    (d : List Nat) (h : d.length < bl) :
    serverAtSending1 cli bl d = ⟨true, .sending1, bl - d.length⟩ := by
  unfold serverAtSending1
  by_cases h0 : d.length = 0
  · rw [if_pos h0, h0]
    simp
  · rw [if_neg h0, if_pos h]

theorem serverAtSending2_stay (bl : Nat) (d : List Nat)
    (h : d.length < bl) :
    serverAtSending2 bl d = ⟨true, .sending2, bl - d.length⟩ := by
  unfold serverAtSending2
  by_cases h0 : d.length = 0
  · rw [if_pos h0, h0]
    simp
  · rw [if_neg h0, if_pos h]

theorem clientAtSending1_split (srv : RTMPState) (bl : Nat)
    (swf pg : Option (List Nat)) (d1 d2 : List Nat)
    (h : d1.length < bl) :
    obsC (clientAtSending1 srv bl swf pg (d1 ++ d2)) =
      obsC (clientAtSending1 srv (bl - d1.length) swf pg d2) := by
  by_cases h3 : (d1 ++ d2).length < bl
  · rw [clientAtSending1_stay srv bl swf pg _ h3,
      clientAtSending1_stay srv (bl - d1.length) swf pg d2
        (by rw [List.length_append] at h3; omega)]
    rw [List.length_append]
    simp only [obsC]
    norm_num
    omega
  · unfold clientAtSending1
    rw [if_neg (show ¬ (d1 ++ d2).length = 0 by
        rw [List.length_append] at h3 ⊢; omega),
      if_neg h3,
      if_neg (show ¬ d2.length = 0 by
        rw [List.length_append] at h3; omega),
      if_neg (show ¬ d2.length < bl - d1.length by
        rw [List.length_append] at h3; omega),
      drop_append_of_length_le d1 d2 bl (le_of_lt h)]
    exact clientAtSent1_bl_irrel srv bl (bl - d1.length) swf pg _

theorem clientAtSending2_split (bl : Nat)
    (swf pg : Option (List Nat)) (d1 d2 : List Nat)
    (h : d1.length < bl) :
    obsC (clientAtSending2 bl swf pg (d1 ++ d2)) =
      obsC (clientAtSending2 (bl - d1.length) swf pg d2) := by
  by_cases h3 : (d1 ++ d2).length < bl
  · rw [clientAtSending2_stay bl swf pg _ h3,
      clientAtSending2_stay (bl - d1.length) swf pg d2
        (by rw [List.length_append] at h3; omega)]
    rw [List.length_append]
    simp only [obsC]
    norm_num
    omega
  · unfold clientAtSending2
    rw [if_neg (show ¬ (d1 ++ d2).length = 0 by
        rw [List.length_append] at h3 ⊢; omega),
      if_neg h3,
      if_neg (show ¬ d2.length = 0 by
        rw [List.length_append] at h3; omega),
      if_neg (show ¬ d2.length < bl - d1.length by
        rw [List.length_append] at h3; omega),
      drop_append_of_length_le d1 d2 bl (le_of_lt h)]
    exact clientAtSent2_bl_irrel bl (bl - d1.length) swf pg _

theorem serverAtSending1_split (cli : RTMPState) (bl : Nat)
    (d1 d2 : List Nat) (h : d1.length < bl) :
    obsS (serverAtSending1 cli bl (d1 ++ d2)) =
      obsS (serverAtSending1 cli (bl - d1.length) d2) := by
  by_cases h3 : (d1 ++ d2).length < bl
  · rw [serverAtSending1_stay cli bl _ h3,
      serverAtSending1_stay cli (bl - d1.length) d2
        (by rw [List.length_append] at h3; omega)]
    rw [List.length_append]
    simp only [obsS]
    norm_num
    omega
  · unfold serverAtSending1
    rw [if_neg (show ¬ (d1 ++ d2).length = 0 by
        rw [List.length_append] at h3 ⊢; omega),
      if_neg h3,
      if_neg (show ¬ d2.length = 0 by
        rw [List.length_append] at h3; omega),
      if_neg (show ¬ d2.length < bl - d1.length by
        rw [List.length_append] at h3; omega),
      drop_append_of_length_le d1 d2 bl (le_of_lt h)]
    exact serverAtSent1_bl_irrel cli bl (bl - d1.length) _

theorem serverAtSending2_split (bl : Nat) (d1 d2 : List Nat)
    (h : d1.length < bl) :
    obsS (serverAtSending2 bl (d1 ++ d2)) =
      obsS (serverAtSending2 (bl - d1.length) d2) := by
  by_cases h3 : (d1 ++ d2).length < bl
  · rw [serverAtSending2_stay bl _ h3,
      serverAtSending2_stay (bl - d1.length) d2
        (by rw [List.length_append] at h3; omega)]
    rw [List.length_append]
    simp only [obsS]
    norm_num
    omega
  · unfold serverAtSending2
    rw [if_neg (show ¬ (d1 ++ d2).length = 0 by
        rw [List.length_append] at h3 ⊢; omega),
      if_neg h3,
      if_neg (show ¬ d2.length = 0 by
        rw [List.length_append] at h3; omega),
      if_neg (show ¬ d2.length < bl - d1.length by
        rw [List.length_append] at h3; omega)]
    simp [obsS]

theorem clientLoop_sending_split (srv cs : RTMPState) (bl : Nat)
    (swf pg : Option (List Nat)) (d1 d2 : List Nat)
    (hcs : cs = .sending1 ∨ cs = .sending2) (h : d1.length < bl) :
    obsC (clientLoop srv cs bl swf pg (d1 ++ d2)) =
      obsC (clientLoop srv cs (bl - d1.length) swf pg d2) := by
  rcases hcs with h1 | h1 <;> subst h1
  · exact clientAtSending1_split srv bl swf pg d1 d2 h
  · exact clientAtSending2_split bl swf pg d1 d2 h

theorem serverLoop_sending_split (cli sv : RTMPState) (bl : Nat)
    (d1 d2 : List Nat)
    (hsv : sv = .sending1 ∨ sv = .sending2) (h : d1.length < bl) :
    obsS (serverLoop cli sv bl (d1 ++ d2)) =
      obsS (serverLoop cli sv (bl - d1.length) d2) := by
  rcases hsv with h1 | h1 <;> subst h1
  · exact serverAtSending1_split cli bl d1 d2 h
  · exact serverAtSending2_split bl d1 d2 h

theorem rtmp_validate_sending_initiator (ss : ServiceRTMPData)
    (d : List Nat) (asd : AppIdSessionM) (cfg : ModConfig)
    (hcs : ss.client_state = .sending1 ∨ ss.client_state = .sending2)
    (hlen : d.length < ss.client_bytes_left)
    (hcnt : asd.session_packet_count < cfg.rtmp_max_packets) :
    rtmp_validate (some ss) .initiator d asd cfg =
      ⟨.inprocess, some (clientStepped ss
        ⟨true, ss.client_state, ss.client_bytes_left - d.length,
          ss.swfUrl, ss.pageUrl⟩), asd⟩ := by
  have hnd : ¬ ss.client_state = .stDone := by
    rcases hcs with h1 | h1 <;> rw [h1] <;> decide
  by_cases hd : d.length = 0
  · unfold rtmp_validate
    rw [if_pos hd, hd]
    simp only [Nat.sub_zero]
    congr 1
  · rw [rtmp_validate_initiator (some ss) d asd cfg hd]
    simp only [Option.getD_some]
    have hloop : clientLoop ss.server_state ss.client_state
        ss.client_bytes_left ss.swfUrl ss.pageUrl d =
        ⟨true, ss.client_state, ss.client_bytes_left - d.length,
          ss.swfUrl, ss.pageUrl⟩ := by
      rcases hcs with h1 | h1 <;> rw [h1]
      · exact clientAtSending1_stay _ _ _ _ _ hlen
      · exact clientAtSending2_stay _ _ _ _ hlen
    rw [hloop]
    unfold rtmp_validate_report
    rw [if_neg (by simp)]
    rw [if_neg (show ¬ ((clientStepped ss
        ⟨true, ss.client_state, ss.client_bytes_left - d.length,
          ss.swfUrl, ss.pageUrl⟩).client_state = .stDone ∧
        (clientStepped ss ⟨true, ss.client_state,
          ss.client_bytes_left - d.length, ss.swfUrl,
          ss.pageUrl⟩).server_state = .stDone) from
      fun hc => hnd hc.1)]
    rw [if_neg (Nat.not_le.mpr hcnt)]

theorem rtmp_validate_sending_responder (ss : ServiceRTMPData)
    (d : List Nat) (asd : AppIdSessionM) (cfg : ModConfig)
    (hsv : ss.server_state = .sending1 ∨ ss.server_state = .sending2)
    (hlen : d.length < ss.server_bytes_left)
    (hcnt : asd.session_packet_count < cfg.rtmp_max_packets) :
    rtmp_validate (some ss) .responder d asd cfg =
      ⟨.inprocess, some (serverStepped ss
        ⟨true, ss.server_state, ss.server_bytes_left - d.length⟩),
        asd⟩ := by
  have hnd : ¬ ss.server_state = .stDone := by
    rcases hsv with h1 | h1 <;> rw [h1] <;> decide
  by_cases hd : d.length = 0
  · unfold rtmp_validate
    rw [if_pos hd, hd]
    simp only [Nat.sub_zero]
    congr 1
  · rw [rtmp_validate_responder (some ss) d asd cfg hd]
    simp only [Option.getD_some]
    have hloop : serverLoop ss.client_state ss.server_state
        ss.server_bytes_left d =
        ⟨true, ss.server_state, ss.server_bytes_left - d.length⟩ := by
      rcases hsv with h1 | h1 <;> rw [h1]
      · exact serverAtSending1_stay _ _ _ hlen
      · exact serverAtSending2_stay _ _ hlen
    rw [hloop]
    unfold rtmp_validate_report
    rw [if_neg (by simp)]
    rw [if_neg (show ¬ ((serverStepped ss
        ⟨true, ss.server_state,
          ss.server_bytes_left - d.length⟩).client_state = .stDone ∧
        (serverStepped ss ⟨true, ss.server_state,
          ss.server_bytes_left - d.length⟩).server_state = .stDone) from
      fun hc => hnd hc.2)]
    rw [if_neg (Nat.not_le.mpr hcnt)]

theorem rtmp_success_handoff_asd_congr (ssA ssB : ServiceRTMPData)
    (asd : AppIdSessionM) (cfg : ModConfig)
    (h1 : ssA.swfUrl = ssB.swfUrl) (h2 : ssA.pageUrl = ssB.pageUrl) :
    (rtmp_success_handoff ssA asd cfg).2 =
      (rtmp_success_handoff ssB asd cfg).2 := by
  obtain ⟨csA, svA, cbA, sbA, swfA, pgA⟩ := ssA
  obtain ⟨csB, svB, cbB, sbB, swfB, pgB⟩ := ssB
  simp only at h1 h2
  subst h1
  subst h2
  obtain ⟨hs, cnt, fl⟩ := asd
  rcases hs with - | ⟨u, r⟩
  · rcases swfA with - | s <;> rcases pgA with - | p <;>
      simp [rtmp_success_handoff] <;> split_ifs <;> rfl
  · rcases u with - | u2 <;> rcases r with - | r2 <;>
      rcases swfA with - | s <;> rcases pgA with - | p <;>
      simp [rtmp_success_handoff] <;> split_ifs <;> rfl

theorem report_obs_congr (ok : Bool) (ssA ssB : ServiceRTMPData)
    (asd : AppIdSessionM) (cfg : ModConfig) (h : obsSS ssA = obsSS ssB) :
    obsValidate (rtmp_validate_report ok ssA asd cfg) =
      obsValidate (rtmp_validate_report ok ssB asd cfg) := by
  simp only [obsSS, Prod.mk.injEq] at h
  obtain ⟨e1, e2, e3, e4, e5, e6⟩ := h
  rw [e1] at e3
  rw [e2] at e4
  unfold rtmp_validate_report
  by_cases hok : ¬ ok
  · rw [if_pos hok, if_pos hok]
    simp [obsValidate, obsSS, e1, e2, e3, e4]
  · rw [if_neg hok, if_neg hok]
    by_cases hdone : ssB.client_state = .stDone ∧ ssB.server_state = .stDone
    · rw [if_pos (by rw [e1, e2]; exact hdone), if_pos hdone]
      have hsA := rtmp_success_handoff_ss ssA asd cfg
      have hsB := rtmp_success_handoff_ss ssB asd cfg
      have hasd := rtmp_success_handoff_asd_congr ssA ssB asd cfg e5 e6
      simp [obsValidate, hasd, hsA, hsB, obsSS, e1, e2, e3, e4]
    · rw [if_neg (by rw [e1, e2]; exact hdone), if_neg hdone]
      by_cases hceil : cfg.rtmp_max_packets ≤ asd.session_packet_count
      · rw [if_pos hceil, if_pos hceil]
        simp [obsValidate, obsSS, e1, e2, e3, e4]
      · rw [if_neg hceil, if_neg hceil]
        simp [obsValidate, obsSS, e1, e2, e3, e4, e5, e6]

theorem C1_client_part (ss : ServiceRTMPData) (d1 d2 : List Nat)
    (asd1 asd2 : AppIdSessionM) (cfg : ModConfig)
    (hcs : ss.client_state = .sending1 ∨ ss.client_state = .sending2)
    (hlen : d1.length < ss.client_bytes_left)
    (hc1 : asd1.session_packet_count < cfg.rtmp_max_packets)
    (hc2 : asd2.session_packet_count < cfg.rtmp_max_packets) :
    (rtmp_validate (some ss) .initiator d1 asd1 cfg).ret = .inprocess ∧
    obsValidate (rtmp_validate
        (rtmp_validate (some ss) .initiator d1 asd1 cfg).ss
        .initiator d2 asd2 cfg) =
      obsValidate (rtmp_validate (some ss) .initiator (d1 ++ d2)
        asd2 cfg) := by
  have hv1 := rtmp_validate_sending_initiator ss d1 asd1 cfg hcs hlen hc1
  refine ⟨by rw [hv1], ?_⟩
  rw [hv1]
  simp only
  by_cases hd2 : d2.length = 0
  · have hd2' : d2 = [] := List.length_eq_zero.mp hd2
    subst hd2'
    rw [List.append_nil]
    have hv2 := rtmp_validate_sending_initiator ss d1 asd2 cfg hcs hlen hc2
    rw [hv2]
    conv_lhs => rw [rtmp_validate]
    rfl
  · have hne12 : ¬ (d1 ++ d2).length = 0 := by
      rw [List.length_append]; omega
    rw [rtmp_validate_initiator _ d2 asd2 cfg hd2,
      rtmp_validate_initiator (some ss) (d1 ++ d2) asd2 cfg hne12]
    simp only [Option.getD_some, clientStepped]
    have hsplit := clientLoop_sending_split ss.server_state
      ss.client_state ss.client_bytes_left ss.swfUrl ss.pageUrl d1 d2
      hcs hlen
    simp only [obsC, Prod.mk.injEq] at hsplit
    obtain ⟨g1, g2, g3, g4, g5⟩ := hsplit
    rw [g1]
    apply report_obs_congr
    simp only [obsSS, clientStepped]
    rw [g3, g2, g4, g5]

theorem C1_server_part (ss : ServiceRTMPData) (d1 d2 : List Nat)
    (asd1 asd2 : AppIdSessionM) (cfg : ModConfig)
    (hsv : ss.server_state = .sending1 ∨ ss.server_state = .sending2)
    (hlen : d1.length < ss.server_bytes_left)
    (hc1 : asd1.session_packet_count < cfg.rtmp_max_packets)
    (hc2 : asd2.session_packet_count < cfg.rtmp_max_packets) :
    (rtmp_validate (some ss) .responder d1 asd1 cfg).ret = .inprocess ∧
    obsValidate (rtmp_validate
        (rtmp_validate (some ss) .responder d1 asd1 cfg).ss
        .responder d2 asd2 cfg) =
      obsValidate (rtmp_validate (some ss) .responder (d1 ++ d2)
        asd2 cfg) := by
  have hv1 := rtmp_validate_sending_responder ss d1 asd1 cfg hsv hlen hc1
  refine ⟨by rw [hv1], ?_⟩
  rw [hv1]
  simp only
  by_cases hd2 : d2.length = 0
  · have hd2' : d2 = [] := List.length_eq_zero.mp hd2
    subst hd2'
    rw [List.append_nil]
    have hv2 := rtmp_validate_sending_responder ss d1 asd2 cfg hsv hlen hc2
    rw [hv2]
    conv_lhs => rw [rtmp_validate]
    rfl
  · have hne12 : ¬ (d1 ++ d2).length = 0 := by
      rw [List.length_append]; omega
    rw [rtmp_validate_responder _ d2 asd2 cfg hd2,
      rtmp_validate_responder (some ss) (d1 ++ d2) asd2 cfg hne12]
    simp only [Option.getD_some, serverStepped]
    have hsplit := serverLoop_sending_split ss.client_state
      ss.server_state ss.server_bytes_left d1 d2 hsv hlen
    simp only [obsS, Prod.mk.injEq] at hsplit
    obtain ⟨g1, g2, g3⟩ := hsplit
    rw [g1]
    apply report_obs_congr
    simp only [obsSS, serverStepped]
    rw [g3, g2]

/-- C1 (amended): chunking-invariance holds throughout the byte-budget
(handshake) phase: while a side is in a SENDING state with bytes still
owed, splitting a delivery at any point strictly inside the remaining
budget gives a first call that reports in-process and leaves the flow
so that the second call produces the same outcome, the same observable
flow state and the same session record as the unsplit delivery, the
packet ceiling being out of reach at each call.  (By the accompanying
counterexample, invariance does not extend to splits that separate
bytes of the connect message once the client has entered
SENT_HANDSHAKE2.) -/
theorem C1_amended_budget_chunking :
    (∀ (ss : ServiceRTMPData) (d1 d2 : List Nat)
      (asd1 asd2 : AppIdSessionM) (cfg : ModConfig),
      (ss.client_state = .sending1 ∨ ss.client_state = .sending2) →
      d1.length < ss.client_bytes_left →
      asd1.session_packet_count < cfg.rtmp_max_packets →
      asd2.session_packet_count < cfg.rtmp_max_packets →
      (rtmp_validate (some ss) .initiator d1 asd1 cfg).ret =
        .inprocess ∧
      obsValidate (rtmp_validate
          (rtmp_validate (some ss) .initiator d1 asd1 cfg).ss
          .initiator d2 asd2 cfg) =
        obsValidate (rtmp_validate (some ss) .initiator (d1 ++ d2)
          asd2 cfg)) ∧
    (∀ (ss : ServiceRTMPData) (d1 d2 : List Nat)
      (asd1 asd2 : AppIdSessionM) (cfg : ModConfig),
      (ss.server_state = .sending1 ∨ ss.server_state = .sending2) →
      d1.length < ss.server_bytes_left →
      asd1.session_packet_count < cfg.rtmp_max_packets →
      asd2.session_packet_count < cfg.rtmp_max_packets →
      (rtmp_validate (some ss) .responder d1 asd1 cfg).ret =
        .inprocess ∧
      obsValidate (rtmp_validate
          (rtmp_validate (some ss) .responder d1 asd1 cfg).ss
          .responder d2 asd2 cfg) =
        obsValidate (rtmp_validate (some ss) .responder (d1 ++ d2)
          asd2 cfg)) :=
  ⟨fun ss d1 d2 asd1 asd2 cfg h1 h2 h3 h4 =>
    C1_client_part ss d1 d2 asd1 asd2 cfg h1 h2 h3 h4,
   fun ss d1 d2 asd1 asd2 cfg h1 h2 h3 h4 =>
    C1_server_part ss d1 d2 asd1 asd2 cfg h1 h2 h3 h4⟩

/-- C1 (amended, witness): a mid-budget split of a client delivery on a
concrete flow state. -/
theorem C1_amended_budget_chunking_witness :
    (rtmp_validate (some ⟨.sending1, .stInit, 10, 0, none, none⟩)
      .initiator [0, 0] exAsd exCfg).ret = .inprocess ∧
    obsValidate (rtmp_validate
        (rtmp_validate (some ⟨.sending1, .stInit, 10, 0, none, none⟩)
          .initiator [0, 0] exAsd exCfg).ss
        .initiator [0] exAsd exCfg) =
      obsValidate (rtmp_validate
        (some ⟨.sending1, .stInit, 10, 0, none, none⟩)
        .initiator ([0, 0] ++ [0]) exAsd exCfg) :=
  C1_amended_budget_chunking.1 ⟨.sending1, .stInit, 10, 0, none, none⟩
    [0, 0] [0] exAsd exAsd exCfg (Or.inl rfl) (by decide) (by decide)
    (by decide)
